import Mathlib

/-!
# Untrusted message-exchange bridge of the local-attestation initiator

A shallow embedding of `src/AppInitiator/UntrustedEnclaveMessageExchange.cpp`:
the four OCALLs `session_request_ocall`, `exchange_report_ocall`,
`send_request_ocall` and `end_session_ocall`.

* Memory objects (heap buffers, the stack message, caller buffers) are byte
  lists; a load or store outside an object is a fault.
* `size_t` arithmetic is taken modulo `2^64`, `uint32_t` values are stored in
  four bytes, little-endian (the code targets x86-64).
* The heap is the list of live blocks; `free` of a block that is not live is a
  fault, `free(NULL)` does nothing.
* The allocator's verdict, the transport `client_send_receive` and the
  indeterminate content of uninitialised stack storage are the environment.
* Every declaration that comes from a header that is not part of the sources
  (`fifo_def.h`, `datatypes.h`, `error_codes.h`, `sgx_dh.h`) is a field of
  `Decls`; the theorems hold for every such set of declarations that is a
  sane C layout (`Decls.wf`).
-/

namespace LocalAttestation

/-! ## Bytes and machine integers -/

/-- One byte of memory. -/
abbrev Byte := Fin 256

/-- Reduction of a natural number to the range of `size_t` (64 bits). -/
def size_t (n : Nat) : Nat := n % 2 ^ 64

/-- Little-endian encoding of `v` in `w` bytes (the value is truncated to `w` bytes). -/
def encLE : Nat → Nat → List Byte
  | 0, _ => []
  | w + 1, v => Fin.ofNat (v % 256) :: encLE w (v / 256)

/-- Little-endian decoding of a byte sequence. -/
def decLE : List Byte → Nat
  | [] => 0
  | b :: bs => b.val + 256 * decLE bs

/-! ## Memory objects -/

/-- Read `n` bytes at offset `off` of an object; `none` when the range leaves the object. -/
def load (buf : List Byte) (off n : Nat) : Option (List Byte) :=
  if off + n ≤ buf.length then some ((buf.drop off).take n) else none

/-- Overwrite the bytes at offset `off` of an object with `src`; `none` when the
range leaves the object. -/
def store (buf : List Byte) (off : Nat) (src : List Byte) : Option (List Byte) :=
  if off + src.length ≤ buf.length then
    some (buf.take off ++ src ++ buf.drop (off + src.length))
  else none

/-- Read a `uint32_t` (or an `enum`) field. -/
def load_u32 (buf : List Byte) (off : Nat) : Option Nat :=
  (load buf off 4).map decLE

/-- Read a `size_t` field. -/
def load_u64 (buf : List Byte) (off : Nat) : Option Nat :=
  (load buf off 8).map decLE

/-- Write a `uint32_t` (or an `enum`) field. -/
def store_u32 (buf : List Byte) (off v : Nat) : Option (List Byte) :=
  store buf off (encLE 4 v)

/-- Write a `size_t` field. -/
def store_u64 (buf : List Byte) (off v : Nat) : Option (List Byte) :=
  store buf off (encLE 8 v)

/-- The call `memcpy(dst + dstOff, src + srcOff, n)`: the source range is read, then
the destination range is written. -/
def memcpy (dst : List Byte) (dstOff : Nat) (src : List Byte) (srcOff n : Nat) :
    Option (List Byte) :=
  (load src srcOff n).bind (fun bs => store dst dstOff bs)

/-- The content of a block of `n` bytes after `memset(p, 0, n)`. -/
def memset0 (n : Nat) : List Byte := List.replicate n 0

/-! ## Heap -/

/-- A heap block identifier (a non-null pointer returned by `malloc`). -/
abbrev Ptr := Nat

/-- The heap: the live blocks, most recently allocated first. -/
abbrev Heap := List Ptr

/-- A block identifier that is not live. -/
def fresh (h : Heap) : Ptr := h.foldr max 0 + 1

/-- Allocation of a new block. -/
def alloc (h : Heap) : Ptr × Heap := (fresh h, fresh h :: h)

/-- The call `free(p)`: nothing for `NULL`, release of a live block, and `none`
(invalid free) for a block that is not live. -/
def free (h : Heap) : Option Ptr → Option Heap
  | none => some h
  | some p => if p ∈ h then some (h.erase p) else none

/-! ## Declarations taken from the headers -/

/-- The constants, sizes and member offsets the code takes from `fifo_def.h`,
`datatypes.h`, `error_codes.h` and `sgx_dh.h`. -/
structure Decls where
  /-- Value of `FIFO_DH_REQ_MSG1`. -/
  FIFO_DH_REQ_MSG1 : Nat
  /-- Value of `FIFO_DH_MSG2`. -/
  FIFO_DH_MSG2 : Nat
  /-- Value of `FIFO_DH_MSG_REQ`. -/
  FIFO_DH_MSG_REQ : Nat
  /-- Value of `FIFO_DH_CLOSE_REQ`. -/
  FIFO_DH_CLOSE_REQ : Nat
  /-- Value of `INVALID_SESSION`. -/
  INVALID_SESSION : Nat
  /-- Value of `ERROR_OUT_OF_MEMORY`. -/
  ERROR_OUT_OF_MEMORY : Nat
  /-- Value of `sizeof(FIFO_MSG_HEADER)`. -/
  sizeof_FIFO_MSG_HEADER : Nat
  /-- Value of `sizeof(FIFO_MSG)`. -/
  sizeof_FIFO_MSG : Nat
  /-- Offset of `type` in `FIFO_MSG_HEADER`. -/
  off_type : Nat
  /-- Offset of `size` in `FIFO_MSG_HEADER`. -/
  off_size : Nat
  /-- Offset of `msgbuf` in `FIFO_MSG`. -/
  off_msgbuf : Nat
  /-- Value of `sizeof(sgx_dh_msg1_t)`. -/
  sizeof_dh_msg1 : Nat
  /-- Value of `sizeof(sgx_dh_msg2_t)`. -/
  sizeof_dh_msg2 : Nat
  /-- Value of `sizeof(sgx_dh_msg3_t)`. -/
  sizeof_dh_msg3 : Nat
  /-- Offset of `dh_msg1` in `SESSION_MSG1_RESP`. -/
  off_resp1_dh_msg1 : Nat
  /-- Offset of `sessionid` in `SESSION_MSG1_RESP`. -/
  off_resp1_sessionid : Nat
  /-- Value of `sizeof(SESSION_MSG2)`. -/
  sizeof_SESSION_MSG2 : Nat
  /-- Offset of `dh_msg2` in `SESSION_MSG2`. -/
  off_msg2_dh_msg2 : Nat
  /-- Offset of `sessionid` in `SESSION_MSG2`. -/
  off_msg2_sessionid : Nat
  /-- Offset of `dh_msg3` in `SESSION_MSG3`. -/
  off_msg3_dh_msg3 : Nat
  /-- Value of `sizeof(FIFO_MSGBODY_REQ)`. -/
  sizeof_FIFO_MSGBODY_REQ : Nat
  /-- Offset of `session_id` in `FIFO_MSGBODY_REQ`. -/
  off_req_session_id : Nat
  /-- Offset of `max_payload_size` in `FIFO_MSGBODY_REQ`. -/
  off_req_max_payload_size : Nat
  /-- Offset of `size` in `FIFO_MSGBODY_REQ`. -/
  off_req_size : Nat
  /-- Offset of `buf` in `FIFO_MSGBODY_REQ`. -/
  off_req_buf : Nat
  /-- Value of `sizeof(SESSION_CLOSE_REQ)`. -/
  sizeof_SESSION_CLOSE_REQ : Nat
  /-- Offset of `session_id` in `SESSION_CLOSE_REQ`. -/
  off_close_session_id : Nat

/-- The declarations form a sane C layout: members lie inside their structure and do
not overlap, `msgbuf` is the flexible array that follows the header, `buf` is the
flexible array that follows the request metadata, sizes are `size_t` values, the
message kinds are 32-bit values and the two error codes differ from `0`. -/
def Decls.wf (D : Decls) : Prop :=
  D.off_type + 4 ≤ D.sizeof_FIFO_MSG_HEADER ∧
  D.off_size + 8 ≤ D.sizeof_FIFO_MSG_HEADER ∧
  (D.off_type + 4 ≤ D.off_size ∨ D.off_size + 8 ≤ D.off_type) ∧
  D.off_msgbuf = D.sizeof_FIFO_MSG_HEADER ∧
  D.sizeof_FIFO_MSG_HEADER ≤ D.sizeof_FIFO_MSG ∧
  D.off_msg2_dh_msg2 + D.sizeof_dh_msg2 ≤ D.sizeof_SESSION_MSG2 ∧
  D.off_msg2_sessionid + 4 ≤ D.sizeof_SESSION_MSG2 ∧
  D.off_req_session_id + 4 ≤ D.off_req_buf ∧
  D.off_req_max_payload_size + 8 ≤ D.off_req_buf ∧
  D.off_req_size + 8 ≤ D.off_req_buf ∧
  (D.off_req_session_id + 4 ≤ D.off_req_max_payload_size ∨
    D.off_req_max_payload_size + 8 ≤ D.off_req_session_id) ∧
  (D.off_req_session_id + 4 ≤ D.off_req_size ∨
    D.off_req_size + 8 ≤ D.off_req_session_id) ∧
  (D.off_req_max_payload_size + 8 ≤ D.off_req_size ∨
    D.off_req_size + 8 ≤ D.off_req_max_payload_size) ∧
  D.off_req_buf = D.sizeof_FIFO_MSGBODY_REQ ∧
  D.off_close_session_id + 4 ≤ D.sizeof_SESSION_CLOSE_REQ ∧
  D.sizeof_FIFO_MSG + D.sizeof_SESSION_CLOSE_REQ < 2 ^ 64 ∧
  D.sizeof_FIFO_MSG_HEADER + D.sizeof_SESSION_MSG2 < 2 ^ 64 ∧
  D.sizeof_FIFO_MSG_HEADER + D.sizeof_FIFO_MSGBODY_REQ < 2 ^ 64 ∧
  D.FIFO_DH_REQ_MSG1 < 2 ^ 32 ∧
  D.FIFO_DH_MSG2 < 2 ^ 32 ∧
  D.FIFO_DH_MSG_REQ < 2 ^ 32 ∧
  D.FIFO_DH_CLOSE_REQ < 2 ^ 32 ∧
  D.INVALID_SESSION ≠ 0 ∧
  D.ERROR_OUT_OF_MEMORY ≠ 0

instance (D : Decls) : Decidable D.wf := by
  unfold Decls.wf
  infer_instance

/-- Modelled from the spec: the declarations of `fifo_def.h`, `datatypes.h` and
`error_codes.h`, which are not part of the sources, instantiated for x86-64 after the
wire envelope layout of the spec: the header is `{ kind: u32, body_size: usize }`, the
bodies are `{dh_msg1, session_id: u32}`, `{dh_msg2, session_id: u32}`, `{dh_msg3}`,
`{session_id: u32, max_response_size: usize, request_size: usize, request_bytes}` and
`{session_id: u32}`. The Diffie-Hellman messages have the sizes of the SGX SDK, the
message kinds are numbered request, reply, and the error codes are two non-zero values.
It is used to evaluate the calls on concrete inputs. -/
def sgxDecls : Decls where
  FIFO_DH_REQ_MSG1 := 0
  FIFO_DH_MSG2 := 2
  FIFO_DH_MSG_REQ := 4
  FIFO_DH_CLOSE_REQ := 6
  INVALID_SESSION := 0xE3
  ERROR_OUT_OF_MEMORY := 0xF1
  sizeof_FIFO_MSG_HEADER := 16
  sizeof_FIFO_MSG := 16
  off_type := 0
  off_size := 8
  off_msgbuf := 16
  sizeof_dh_msg1 := 576
  sizeof_dh_msg2 := 512
  sizeof_dh_msg3 := 452
  off_resp1_dh_msg1 := 0
  off_resp1_sessionid := 576
  sizeof_SESSION_MSG2 := 516
  off_msg2_dh_msg2 := 0
  off_msg2_sessionid := 512
  off_msg3_dh_msg3 := 0
  sizeof_FIFO_MSGBODY_REQ := 24
  off_req_session_id := 0
  off_req_max_payload_size := 8
  off_req_size := 16
  off_req_buf := 24
  sizeof_SESSION_CLOSE_REQ := 4
  off_close_session_id := 0

/-! ## Environment and results -/

/-- What `client_send_receive` leaves behind: its return value and the reply pointer
(`none` is `NULL`, `some bytes` a heap block holding the received bytes, whose number
is the reported reply size). -/
structure TransportOutcome where
  /-- The return value of the call. -/
  ret : Int
  /-- The reply buffer handed back. -/
  reply : Option (List Byte)

/-- The environment of a call. -/
structure Env where
  /-- Whether `malloc(n)` fails in heap `h`. -/
  malloc_fails : Heap → Nat → Bool
  /-- The transport: the outcome for a message and its transmitted length. -/
  client_send_receive : List Byte → Nat → TransportOutcome
  /-- The indeterminate bytes of uninitialised stack storage. -/
  indeterminate : Nat → Byte

/-- The call `malloc(n)`: `NULL` and an unchanged heap, or a new live block. -/
def malloc (E : Env) (h : Heap) (n : Nat) : Option Ptr × Heap :=
  if E.malloc_fails h n then (none, h) else ((alloc h).1, (alloc h).2)

/-- The reply pointer and the heap after the transport returned: a reply buffer is a
new live block allocated by the transport. -/
def receive (h : Heap) (reply : Option (List Byte)) : Option Ptr × Heap :=
  match reply with
  | none => (none, h)
  | some _ => ((alloc h).1, (alloc h).2)

/-- Ways in which a call stops without returning. -/
inductive Fault where
  | null_deref
  | out_of_bounds
  | invalid_free
  deriving DecidableEq, Repr

/-- How a call ends: it returns an `ATTESTATION_STATUS`, or it faults. -/
inductive Exit where
  | returned (status : Nat)
  | fault (f : Fault)
  deriving DecidableEq, Repr

/-- The state when a call ends (at a fault: the state before the faulting statement). -/
structure Final (Out : Type) where
  /-- How the call ended. -/
  exit : Exit
  /-- The content of the caller's output locations. -/
  out : Out
  /-- The live heap blocks. -/
  heap : Heap
  /-- The messages handed to the transport, with their transmitted lengths. -/
  calls : List (List Byte × Nat)

/-- Release of two pointers in order, as the last statements before `return 0`. -/
def free2 (h : Heap) (p q : Option Ptr) : Option Heap :=
  (free h p).bind (fun h1 => free h1 q)

/-! ## The four OCALLs -/

/-- The local `msg1_request` of `session_request_ocall` when it is handed to the
transport: uninitialised stack storage of `sizeof(FIFO_MSG)` bytes in which
`header.type` and `header.size` have been assigned. -/
def session_request_message (D : Decls) (E : Env) : Option (List Byte) := do
  let msg1_request := (List.range D.sizeof_FIFO_MSG).map E.indeterminate
  let msg1_request ← store_u32 msg1_request D.off_type D.FIFO_DH_REQ_MSG1
  store_u64 msg1_request D.off_size 0

/-- The function `session_request_ocall(dh_msg1, session_id)`; the output locations are
the object `*dh_msg1` and the value `*session_id`. The local `msg1_response` is not
initialised; it is read only after the transport returned `0`, and holds what the
transport stored in it. -/
def session_request_ocall (D : Decls) (E : Env) (h : Heap)
    (dh_msg1 : List Byte) (session_id : Nat) : Final (List Byte × Nat) :=
  match session_request_message D E with
  | none => ⟨.fault .out_of_bounds, (dh_msg1, session_id), h, []⟩
  | some msg1_request =>
    let r := E.client_send_receive msg1_request D.sizeof_FIFO_MSG
    let calls := [(msg1_request, D.sizeof_FIFO_MSG)]
    let msg1_response := (receive h r.reply).1
    let h1 := (receive h r.reply).2
    if r.ret ≠ 0 then
      ⟨.returned D.INVALID_SESSION, (dh_msg1, session_id), h1, calls⟩
    else
      match r.reply with
      | none => ⟨.returned D.INVALID_SESSION, (dh_msg1, session_id), h1, calls⟩
      | some resp =>
        match memcpy dh_msg1 0 resp (D.off_msgbuf + D.off_resp1_dh_msg1) D.sizeof_dh_msg1 with
        | none => ⟨.fault .out_of_bounds, (dh_msg1, session_id), h1, calls⟩
        | some dh_msg1_new =>
          match load_u32 resp (D.off_msgbuf + D.off_resp1_sessionid) with
          | none => ⟨.fault .out_of_bounds, (dh_msg1_new, session_id), h1, calls⟩
          | some sessionid =>
            match free h1 msg1_response with
            | none => ⟨.fault .invalid_free, (dh_msg1_new, sessionid), h1, calls⟩
            | some h2 => ⟨.returned 0, (dh_msg1_new, sessionid), h2, calls⟩

/-- The block `msg2` of `exchange_report_ocall` when it is handed to the transport:
`msg2size` zeroed bytes in which the header and the `SESSION_MSG2` body have been
written. -/
def exchange_report_message (D : Decls) (dh_msg2 : List Byte) (session_id msg2size : Nat) :
    Option (List Byte) := do
  let msg2 := memset0 msg2size
  let msg2 ← store_u32 msg2 D.off_type D.FIFO_DH_MSG2
  let msg2 ← store_u64 msg2 D.off_size D.sizeof_SESSION_MSG2
  let msg2 ← memcpy msg2 (D.off_msgbuf + D.off_msg2_dh_msg2) dh_msg2 0 D.sizeof_dh_msg2
  store_u32 msg2 (D.off_msgbuf + D.off_msg2_sessionid) session_id

/-- The function `exchange_report_ocall(dh_msg2, dh_msg3, session_id)`; the output
location is the object `*dh_msg3`. -/
def exchange_report_ocall (D : Decls) (E : Env) (h : Heap)
    (dh_msg2 dh_msg3 : List Byte) (session_id : Nat) : Final (List Byte) :=
  let msg2size := size_t (D.sizeof_FIFO_MSG_HEADER + D.sizeof_SESSION_MSG2)
  match (malloc E h msg2size).1 with
  | none => ⟨.returned D.ERROR_OUT_OF_MEMORY, dh_msg3, (malloc E h msg2size).2, []⟩
  | some msg2p =>
    let h1 := (malloc E h msg2size).2
    match exchange_report_message D dh_msg2 session_id msg2size with
    | none => ⟨.fault .out_of_bounds, dh_msg3, h1, []⟩
    | some msg2 =>
      let r := E.client_send_receive msg2 msg2size
      let calls := [(msg2, msg2size)]
      let msg3p := (receive h1 r.reply).1
      let h2 := (receive h1 r.reply).2
      if r.ret ≠ 0 then
        match free h2 (some msg2p) with
        | none => ⟨.fault .invalid_free, dh_msg3, h2, calls⟩
        | some h3 => ⟨.returned D.INVALID_SESSION, dh_msg3, h3, calls⟩
      else
        match r.reply with
        | none => ⟨.fault .null_deref, dh_msg3, h2, calls⟩
        | some msg3 =>
          match memcpy dh_msg3 0 msg3 (D.off_msgbuf + D.off_msg3_dh_msg3) D.sizeof_dh_msg3 with
          | none => ⟨.fault .out_of_bounds, dh_msg3, h2, calls⟩
          | some dh_msg3_new =>
            match free2 h2 msg3p (some msg2p) with
            | none => ⟨.fault .invalid_free, dh_msg3_new, h2, calls⟩
            | some h4 => ⟨.returned 0, dh_msg3_new, h4, calls⟩

/-- The value of `reqsize` in `send_request_ocall`:
`sizeof(FIFO_MSG_HEADER) + sizeof(FIFO_MSGBODY_REQ) + req_message_size` in `size_t`. -/
def send_request_reqsize (D : Decls) (req_message_size : Nat) : Nat :=
  size_t (size_t (D.sizeof_FIFO_MSG_HEADER + D.sizeof_FIFO_MSGBODY_REQ) + req_message_size)

/-- The value assigned to `msgreq->header.size` in `send_request_ocall`:
`sizeof(FIFO_MSGBODY_REQ) + req_message_size` in `size_t`. -/
def send_request_body_size (D : Decls) (req_message_size : Nat) : Nat :=
  size_t (D.sizeof_FIFO_MSGBODY_REQ + req_message_size)

/-- The block `msgreq` of `send_request_ocall` when it is handed to the transport:
`reqsize` zeroed bytes in which the header, the request metadata and the request
bytes have been written. -/
def send_request_message (D : Decls) (session_id : Nat) (req_message : List Byte)
    (req_message_size max_payload_size reqsize : Nat) : Option (List Byte) := do
  let msgreq := memset0 reqsize
  let msgreq ← store_u32 msgreq D.off_type D.FIFO_DH_MSG_REQ
  let msgreq ← store_u64 msgreq D.off_size (send_request_body_size D req_message_size)
  let msgreq ← store_u64 msgreq (D.off_msgbuf + D.off_req_max_payload_size) max_payload_size
  let msgreq ← store_u64 msgreq (D.off_msgbuf + D.off_req_size) req_message_size
  let msgreq ← store_u32 msgreq (D.off_msgbuf + D.off_req_session_id) session_id
  memcpy msgreq (D.off_msgbuf + D.off_req_buf) req_message 0 req_message_size

/-- The copy of the reply into the caller's response buffer in `send_request_ocall`:
`memcpy(resp_message, msgresp->msgbuf, min(msgresp->header.size, resp_message_size))`. -/
def send_request_copy (D : Decls) (resp_message msgresp : List Byte)
    (resp_message_size : Nat) : Option (List Byte) :=
  (load_u64 msgresp D.off_size).bind (fun size =>
    memcpy resp_message 0 msgresp D.off_msgbuf
      (if size < resp_message_size then size else resp_message_size))

/-- The function `send_request_ocall(session_id, req_message, req_message_size,
max_payload_size, resp_message, resp_message_size)`; the output location is the
object `*resp_message`. -/
def send_request_ocall (D : Decls) (E : Env) (h : Heap) (session_id : Nat)
    (req_message : List Byte) (req_message_size max_payload_size : Nat)
    (resp_message : List Byte) (resp_message_size : Nat) : Final (List Byte) :=
  let reqsize := send_request_reqsize D req_message_size
  match (malloc E h reqsize).1 with
  | none => ⟨.returned D.ERROR_OUT_OF_MEMORY, resp_message, (malloc E h reqsize).2, []⟩
  | some msgreqp =>
    let h1 := (malloc E h reqsize).2
    match send_request_message D session_id req_message req_message_size max_payload_size
        reqsize with
    | none => ⟨.fault .out_of_bounds, resp_message, h1, []⟩
    | some msgreq =>
      let r := E.client_send_receive msgreq reqsize
      let calls := [(msgreq, reqsize)]
      let msgrespp := (receive h1 r.reply).1
      let h2 := (receive h1 r.reply).2
      if r.ret ≠ 0 then
        match free h2 (some msgreqp) with
        | none => ⟨.fault .invalid_free, resp_message, h2, calls⟩
        | some h3 => ⟨.returned D.INVALID_SESSION, resp_message, h3, calls⟩
      else
        match r.reply with
        | none => ⟨.fault .null_deref, resp_message, h2, calls⟩
        | some msgresp =>
          match send_request_copy D resp_message msgresp resp_message_size with
          | none => ⟨.fault .out_of_bounds, resp_message, h2, calls⟩
          | some resp_message_new =>
            match free2 h2 msgrespp (some msgreqp) with
            | none => ⟨.fault .invalid_free, resp_message_new, h2, calls⟩
            | some h4 => ⟨.returned 0, resp_message_new, h4, calls⟩

/-- The block `closemsg` of `end_session_ocall` when it is handed to the transport. -/
def end_session_message (D : Decls) (session_id reqsize : Nat) : Option (List Byte) := do
  let closemsg := memset0 reqsize
  let closemsg ← store_u32 closemsg D.off_type D.FIFO_DH_CLOSE_REQ
  let closemsg ← store_u64 closemsg D.off_size D.sizeof_SESSION_CLOSE_REQ
  store_u32 closemsg (D.off_msgbuf + D.off_close_session_id) session_id

/-- The function `end_session_ocall(session_id)`; it has no output location. -/
def end_session_ocall (D : Decls) (E : Env) (h : Heap) (session_id : Nat) : Final Unit :=
  let reqsize := size_t (D.sizeof_FIFO_MSG + D.sizeof_SESSION_CLOSE_REQ)
  match (malloc E h reqsize).1 with
  | none => ⟨.returned D.ERROR_OUT_OF_MEMORY, (), (malloc E h reqsize).2, []⟩
  | some closemsgp =>
    let h1 := (malloc E h reqsize).2
    match end_session_message D session_id reqsize with
    | none => ⟨.fault .out_of_bounds, (), h1, []⟩
    | some closemsg =>
      let r := E.client_send_receive closemsg reqsize
      let calls := [(closemsg, reqsize)]
      let msgrespp := (receive h1 r.reply).1
      let h2 := (receive h1 r.reply).2
      if r.ret ≠ 0 then
        match free h2 (some closemsgp) with
        | none => ⟨.fault .invalid_free, (), h2, calls⟩
        | some h3 => ⟨.returned D.INVALID_SESSION, (), h3, calls⟩
      else
        match free2 h2 (some closemsgp) msgrespp with
        | none => ⟨.fault .invalid_free, (), h2, calls⟩
        | some h4 => ⟨.returned 0, (), h4, calls⟩

/-! ## Auxiliary definitions for the statements -/

/-- The object after a store that stays inside it. -/
def stored (buf : List Byte) (off : Nat) (src : List Byte) : List Byte :=
  buf.take off ++ src ++ buf.drop (off + src.length)

/-- An environment whose allocator never fails and whose transport answers every
message with the outcome `o`. -/
def constEnv (o : TransportOutcome) : Env :=
  ⟨fun _ _ => false, fun _ _ => o, fun _ => 0⟩

/-- An environment whose allocator always fails. -/
def noMemoryEnv : Env :=
  ⟨fun _ _ => true, fun _ _ => ⟨0, none⟩, fun _ => 0⟩

/-- A reply for `sgxDecls` whose header declares the kind `kind` and the body size
`size` and whose received body is `body`. -/
def sgxReply (kind size : Nat) (body : List Byte) : List Byte :=
  encLE 4 kind ++ [0, 0, 0, 0] ++ encLE 8 size ++ body

/-- The request `send_request_ocall` builds for `sgxDecls` from the session id `7`, the
request bytes `1, 2, 3` and the maximum payload size `16`. -/
def sgxRequest : List Byte :=
  encLE 4 4 ++ [0, 0, 0, 0] ++ encLE 8 27 ++
    (encLE 4 7 ++ [0, 0, 0, 0] ++ encLE 8 16 ++ encLE 8 3 ++ [1, 2, 3])

/-- The heap is as it was before the call when the call returns, and no block is
released that is not live. -/
def Final.buffers_released {Out : Type} (f : Final Out) (h : Heap) : Prop :=
  f.exit ≠ .fault .invalid_free ∧ ∀ s, f.exit = .returned s → f.heap = h

/-! ## Lemmas on bytes and memory objects -/

theorem length_encLE (w v : Nat) : (encLE w v).length = w := by
  induction w generalizing v with
  | zero => rfl
  | succ w ih => simp [encLE, ih]

theorem decLE_encLE (w v : Nat) : decLE (encLE w v) = v % 256 ^ w := by
  induction w generalizing v with
  | zero => simp [encLE, decLE, Nat.mod_one]
  | succ w ih =>
    simp only [encLE, decLE, ih]
    have h1 : ((Fin.ofNat (v % 256) : Byte) : Nat) = v % 256 := by
      simp [Fin.ofNat]
    rw [h1, pow_succ, Nat.mul_comm (256 ^ w) 256, Nat.mod_mul]

theorem store_eq {buf : List Byte} {off : Nat} {src : List Byte}
    (h : off + src.length ≤ buf.length) : store buf off src = some (stored buf off src) := by
  simp [store, stored, h]

theorem length_stored {buf : List Byte} {off : Nat} {src : List Byte}
    (h : off + src.length ≤ buf.length) : (stored buf off src).length = buf.length := by
  simp [stored]; omega

theorem getElem?_stored {buf : List Byte} {off : Nat} {src : List Byte}
    (h : off + src.length ≤ buf.length) (i : Nat) :
    (stored buf off src)[i]? =
      if i < off then buf[i]? else if i < off + src.length then src[i - off]? else buf[i]? := by
  unfold stored
  have hl : (List.take off buf).length = off := by simp; omega
  by_cases h1 : i < off
  · rw [if_pos h1, List.append_assoc, List.getElem?_append_left (by omega)]
    simp [List.getElem?_take, h1]
  · rw [if_neg h1, List.append_assoc, List.getElem?_append_right (by omega), hl]
    by_cases h2 : i < off + src.length
    · rw [if_pos h2, List.getElem?_append_left (by omega)]
    · rw [if_neg h2, List.getElem?_append_right (by omega), List.getElem?_drop]
      congr 1; omega

theorem load_eq {buf : List Byte} {off n : Nat} (h : off + n ≤ buf.length) :
    load buf off n = some ((buf.drop off).take n) := by
  simp [load, h]

theorem load_stored_same {buf : List Byte} {off : Nat} {src : List Byte}
    (h : off + src.length ≤ buf.length) :
    load (stored buf off src) off src.length = some src := by
  rw [load_eq (by rw [length_stored h]; exact h)]
  congr 1
  apply List.ext_getElem?
  intro i
  rw [List.getElem?_take]
  split
  · rw [List.getElem?_drop, getElem?_stored h]
    simp; intro; omega
  · rw [List.getElem?_eq_none (by omega)]

theorem load_stored_disjoint {buf : List Byte} {off : Nat} {src : List Byte}
    (h : off + src.length ≤ buf.length) {o n : Nat}
    (hd : o + n ≤ off ∨ off + src.length ≤ o) :
    load (stored buf off src) o n = load buf o n := by
  unfold load
  rw [length_stored h]
  split
  · congr 1
    apply List.ext_getElem?
    intro i
    rw [List.getElem?_take, List.getElem?_take]
    split
    · rw [List.getElem?_drop, List.getElem?_drop, getElem?_stored h]
      split
      · rfl
      · rw [if_neg (by omega)]
    · rfl
  · rfl

theorem load_length {buf : List Byte} {off n : Nat} {bs : List Byte}
    (h : load buf off n = some bs) : off + n ≤ buf.length ∧ bs.length = n := by
  unfold load at h
  split at h
  · cases h
    refine ⟨by assumption, ?_⟩
    simp; omega
  · cases h

/-- A store that succeeds stays inside the object and keeps its length. -/
theorem store_some {buf : List Byte} {off : Nat} {src b : List Byte}
    (h : store buf off src = some b) :
    off + src.length ≤ buf.length ∧ b = stored buf off src ∧ b.length = buf.length := by
  unfold store at h
  split at h
  · cases h
    exact ⟨by assumption, rfl, length_stored (by assumption)⟩
  · cases h

/-- A store inside the object: the bytes written are read back and the bytes outside
the written range are kept. -/
theorem store_spec {b : List Byte} {o : Nat} {s : List Byte}
    (h : o + s.length ≤ b.length) :
    ∃ r, store b o s = some r ∧ r.length = b.length ∧
      load r o s.length = some s ∧
      ∀ p n, (p + n ≤ o ∨ o + s.length ≤ p) → load r p n = load b p n :=
  ⟨stored b o s, store_eq h, length_stored h, load_stored_same h,
    fun _ _ hd => load_stored_disjoint h hd⟩

theorem store_u32_spec {b : List Byte} {o v : Nat}
    (h : o + 4 ≤ b.length) (hv : v < 2 ^ 32) :
    ∃ r, store_u32 b o v = some r ∧ r.length = b.length ∧
      load_u32 r o = some v ∧
      ∀ p n, (p + n ≤ o ∨ o + 4 ≤ p) → load r p n = load b p n := by
  obtain ⟨r, e, l, hr, d⟩ := store_spec (b := b) (o := o) (s := encLE 4 v)
    (by rw [length_encLE]; exact h)
  rw [length_encLE] at hr d
  refine ⟨r, e, l, ?_, d⟩
  rw [load_u32, hr, Option.map_some', decLE_encLE]
  congr 1
  exact Nat.mod_eq_of_lt (by norm_num; exact hv)

theorem store_u64_spec {b : List Byte} {o v : Nat}
    (h : o + 8 ≤ b.length) (hv : v < 2 ^ 64) :
    ∃ r, store_u64 b o v = some r ∧ r.length = b.length ∧
      load_u64 r o = some v ∧
      ∀ p n, (p + n ≤ o ∨ o + 8 ≤ p) → load r p n = load b p n := by
  obtain ⟨r, e, l, hr, d⟩ := store_spec (b := b) (o := o) (s := encLE 8 v)
    (by rw [length_encLE]; exact h)
  rw [length_encLE] at hr d
  refine ⟨r, e, l, ?_, d⟩
  rw [load_u64, hr, Option.map_some', decLE_encLE]
  congr 1
  exact Nat.mod_eq_of_lt (by norm_num; exact hv)

theorem store_u32_some {buf : List Byte} {off v : Nat} {b : List Byte}
    (h : store_u32 buf off v = some b) : off + 4 ≤ buf.length ∧ b.length = buf.length := by
  have := store_some h
  rw [length_encLE] at this
  exact ⟨this.1, this.2.2⟩

theorem store_u64_some {buf : List Byte} {off v : Nat} {b : List Byte}
    (h : store_u64 buf off v = some b) : off + 8 ≤ buf.length ∧ b.length = buf.length := by
  have := store_some h
  rw [length_encLE] at this
  exact ⟨this.1, this.2.2⟩

theorem memcpy_spec {d s : List Byte} {i j n : Nat}
    (hs : j + n ≤ s.length) (hd : i + n ≤ d.length) :
    ∃ r, memcpy d i s j n = some r ∧ r.length = d.length ∧
      r = stored d i ((s.drop j).take n) ∧
      load r i n = load s j n ∧
      ∀ p m, (p + m ≤ i ∨ i + n ≤ p) → load r p m = load d p m := by
  have hl : ((s.drop j).take n).length = n := by simp; omega
  obtain ⟨r, e, l, hr, hk⟩ := store_spec (b := d) (o := i)
    (s := (s.drop j).take n) (by rw [hl]; exact hd)
  rw [hl] at hr hk
  refine ⟨r, ?_, l, (store_some e).2.1, ?_, hk⟩
  · rw [memcpy, load_eq hs, Option.some_bind, e]
  · rw [hr, load_eq hs]

theorem memcpy_some {dst src : List Byte} {dstOff srcOff n : Nat} {b : List Byte}
    (h : memcpy dst dstOff src srcOff n = some b) :
    srcOff + n ≤ src.length ∧ dstOff + n ≤ dst.length ∧ b.length = dst.length := by
  unfold memcpy at h
  rw [Option.bind_eq_some] at h
  obtain ⟨bs, e1, e2⟩ := h
  have h1 := load_length e1
  have h2 := store_some e2
  rw [h1.2] at h2
  exact ⟨h1.1, h2.1, h2.2.2⟩

theorem length_memset0 (n : Nat) : (memset0 n).length = n := by
  simp [memset0]

/-! ## Lemmas on the heap -/

theorem le_foldr_max {h : Heap} {p : Ptr} (hp : p ∈ h) : p ≤ h.foldr max 0 := by
  induction h with
  | nil => cases hp
  | cons a t ih =>
    rw [List.foldr_cons]
    rcases List.mem_cons.mp hp with rfl | hp
    · exact le_max_left _ _
    · exact le_trans (ih hp) (le_max_right _ _)

theorem fresh_not_mem (h : Heap) : fresh h ∉ h := by
  intro hp
  have hle : h.foldr max 0 + 1 ≤ h.foldr max 0 := le_foldr_max hp
  exact Nat.not_succ_le_self _ hle

theorem free_alloc (h : Heap) : free (alloc h).2 (some (alloc h).1) = some h := by
  simp [free, alloc]

/-- Release of the reply block, then of the request block, both allocated by the call. -/
theorem free2_reply_request (h : Heap) :
    free2 (alloc (alloc h).2).2 (some (alloc (alloc h).2).1) (some (alloc h).1) = some h := by
  simp [free2, free, alloc]

/-- Release of the request block, then of the reply block, both allocated by the call. -/
theorem free2_request_reply (h : Heap) :
    free2 (alloc (alloc h).2).2 (some (alloc h).1) (some (alloc (alloc h).2).1) = some h := by
  have hne : fresh h ≠ fresh (fresh h :: h) := by
    intro e
    exact fresh_not_mem (fresh h :: h) (e ▸ List.mem_cons_self _ _)
  have hne2 : fresh (fresh h :: h) ≠ fresh h := fun e => hne e.symm
  simp [free2, free, alloc, List.erase_cons, hne, hne2]

/-! ## The request messages -/

theorem load_u32_congr {b c : List Byte} {o : Nat} (h : load b o 4 = load c o 4) :
    load_u32 b o = load_u32 c o := by
  unfold load_u32
  rw [h]

theorem load_u64_congr {b c : List Byte} {o : Nat} (h : load b o 8 = load c o 8) :
    load_u64 b o = load_u64 c o := by
  unfold load_u64
  rw [h]

/-- Without wrap-around the request of `send_request_ocall` is built without leaving
the block, and every field is read back from it. -/
theorem send_request_message_spec {D : Decls} (hw : D.wf) {session_id max_payload_size : Nat}
    {req_message : List Byte} {n : Nat}
    (hsid : session_id < 2 ^ 32) (hmax : max_payload_size < 2 ^ 64)
    (hreq : n ≤ req_message.length)
    (hn : D.sizeof_FIFO_MSG_HEADER + D.sizeof_FIFO_MSGBODY_REQ + n < 2 ^ 64) :
    ∃ msg, send_request_message D session_id req_message n max_payload_size
        (send_request_reqsize D n) = some msg ∧
      msg.length = D.sizeof_FIFO_MSG_HEADER + D.sizeof_FIFO_MSGBODY_REQ + n ∧
      load_u32 msg D.off_type = some D.FIFO_DH_MSG_REQ ∧
      load_u64 msg D.off_size = some (D.sizeof_FIFO_MSGBODY_REQ + n) ∧
      load_u32 msg (D.off_msgbuf + D.off_req_session_id) = some session_id ∧
      load_u64 msg (D.off_msgbuf + D.off_req_max_payload_size) = some max_payload_size ∧
      load_u64 msg (D.off_msgbuf + D.off_req_size) = some n ∧
      load msg (D.off_msgbuf + D.off_req_buf) n = some (req_message.take n) := by
  obtain ⟨h1, h2, h3, h4, h5, h6, h7, h8, h9, h10, h11, h12, h13, h14, h15, h16, h17, h18,
    h19, h20, h21, h22, h23, h24⟩ := hw
  have hS : send_request_reqsize D n =
      D.sizeof_FIFO_MSG_HEADER + D.sizeof_FIFO_MSGBODY_REQ + n := by
    unfold send_request_reqsize size_t
    rw [Nat.mod_eq_of_lt h18, Nat.mod_eq_of_lt hn]
  have hB : send_request_body_size D n = D.sizeof_FIFO_MSGBODY_REQ + n := by
    unfold send_request_body_size size_t
    exact Nat.mod_eq_of_lt (by omega)
  obtain ⟨b1, e1, l1, r1, d1⟩ := store_u32_spec
    (b := memset0 (D.sizeof_FIFO_MSG_HEADER + D.sizeof_FIFO_MSGBODY_REQ + n))
    (o := D.off_type) (v := D.FIFO_DH_MSG_REQ) (by rw [length_memset0]; omega) h21
  rw [length_memset0] at l1
  obtain ⟨b2, e2, l2, r2, d2⟩ := store_u64_spec (b := b1) (o := D.off_size)
    (v := D.sizeof_FIFO_MSGBODY_REQ + n) (by omega) (by omega)
  obtain ⟨b3, e3, l3, r3, d3⟩ := store_u64_spec (b := b2)
    (o := D.off_msgbuf + D.off_req_max_payload_size) (v := max_payload_size)
    (by omega) hmax
  obtain ⟨b4, e4, l4, r4, d4⟩ := store_u64_spec (b := b3)
    (o := D.off_msgbuf + D.off_req_size) (v := n) (by omega) (by omega)
  obtain ⟨b5, e5, l5, r5, d5⟩ := store_u32_spec (b := b4)
    (o := D.off_msgbuf + D.off_req_session_id) (v := session_id) (by omega) hsid
  obtain ⟨b6, e6, l6, -, r6, d6⟩ := memcpy_spec (d := b5) (s := req_message)
    (i := D.off_msgbuf + D.off_req_buf) (j := 0) (n := n) (by omega) (by omega)
  refine ⟨b6, ?_, by omega, ?_, ?_, ?_, ?_, ?_, ?_⟩
  · unfold send_request_message
    simp only [hS, hB, e1, e2, e3, e4, e5, e6, Option.bind_eq_bind, Option.some_bind]
  · rw [← r1]
    refine (load_u32_congr (d6 _ _ (by omega))).trans ?_
    refine (load_u32_congr (d5 _ _ (by omega))).trans ?_
    refine (load_u32_congr (d4 _ _ (by omega))).trans ?_
    refine (load_u32_congr (d3 _ _ (by omega))).trans ?_
    exact load_u32_congr (d2 _ _ (by omega))
  · rw [← r2]
    refine (load_u64_congr (d6 _ _ (by omega))).trans ?_
    refine (load_u64_congr (d5 _ _ (by omega))).trans ?_
    refine (load_u64_congr (d4 _ _ (by omega))).trans ?_
    exact load_u64_congr (d3 _ _ (by omega))
  · rw [← r5]
    exact load_u32_congr (d6 _ _ (by omega))
  · rw [← r3]
    refine (load_u64_congr (d6 _ _ (by omega))).trans ?_
    refine (load_u64_congr (d5 _ _ (by omega))).trans ?_
    exact load_u64_congr (d4 _ _ (by omega))
  · rw [← r4]
    refine (load_u64_congr (d6 _ _ (by omega))).trans ?_
    exact load_u64_congr (d5 _ _ (by omega))
  · rw [r6, load_eq (by omega)]
    simp

/-! ## The paths of the calls -/

theorem malloc_of_fails {E : Env} {h : Heap} {n : Nat} (hm : E.malloc_fails h n = true) :
    malloc E h n = (none, h) := by
  simp [malloc, hm]

theorem malloc_of_not_fails {E : Env} {h : Heap} {n : Nat} (hm : E.malloc_fails h n = false) :
    malloc E h n = (some (alloc h).1, (alloc h).2) := by
  simp [malloc, hm]

/-- Whenever `send_request_ocall` hands a message to the transport, the allocation
succeeded, the message is the request that was built and the transmitted length is
`reqsize`. -/
theorem send_request_ocall_calls {D : Decls} {E : Env} {h : Heap} {session_id : Nat}
    {req_message : List Byte} {n max_payload_size : Nat} {resp_message : List Byte}
    {resp_message_size : Nat} {msg : List Byte} {len : Nat}
    (hc : (msg, len) ∈ (send_request_ocall D E h session_id req_message n max_payload_size
      resp_message resp_message_size).calls) :
    E.malloc_fails h (send_request_reqsize D n) = false ∧
    send_request_message D session_id req_message n max_payload_size
      (send_request_reqsize D n) = some msg ∧
    len = send_request_reqsize D n := by
  cases hm : E.malloc_fails h (send_request_reqsize D n) with
  | true =>
    simp [send_request_ocall, malloc_of_fails hm] at hc
  | false =>
    cases hmsg : send_request_message D session_id req_message n max_payload_size
        (send_request_reqsize D n) with
    | none =>
      simp [send_request_ocall, malloc_of_not_fails hm, hmsg] at hc
    | some m =>
      simp only [send_request_ocall, malloc_of_not_fails hm, hmsg] at hc
      have hcm : (msg, len) ∈ [(m, send_request_reqsize D n)] := by
        revert hc
        repeat' split
        all_goals exact id
      simp at hcm
      simp [hcm]

/-- The path of `send_request_ocall` through a round-trip that returned `0` with a
reply from which the copy stays inside the reply and the response buffer. -/
theorem send_request_ocall_success {D : Decls} {E : Env} {h : Heap} {session_id : Nat}
    {req_message : List Byte} {n max_payload_size : Nat} {resp_message : List Byte}
    {resp_message_size : Nat} {msg msgresp out : List Byte}
    (hm : E.malloc_fails h (send_request_reqsize D n) = false)
    (hmsg : send_request_message D session_id req_message n max_payload_size
      (send_request_reqsize D n) = some msg)
    (hr : E.client_send_receive msg (send_request_reqsize D n) = ⟨0, some msgresp⟩)
    (hcopy : send_request_copy D resp_message msgresp resp_message_size = some out) :
    send_request_ocall D E h session_id req_message n max_payload_size resp_message
      resp_message_size = ⟨.returned 0, out, h, [(msg, send_request_reqsize D n)]⟩ := by
  simp only [send_request_ocall, malloc_of_not_fails hm, hmsg, hr, receive, hcopy,
    free2_reply_request]
  simp

/-- The stack message of `session_request_ocall` is built, has `sizeof(FIFO_MSG)` bytes
and carries the kind `FIFO_DH_REQ_MSG1` and the body size `0`. -/
theorem session_request_message_spec {D : Decls} (hw : D.wf) (E : Env) :
    ∃ msg, session_request_message D E = some msg ∧
      msg.length = D.sizeof_FIFO_MSG ∧
      load_u32 msg D.off_type = some D.FIFO_DH_REQ_MSG1 ∧
      load_u64 msg D.off_size = some 0 := by
  obtain ⟨h1, h2, h3, h4, h5, h6, h7, h8, h9, h10, h11, h12, h13, h14, h15, h16, h17, h18,
    h19, h20, h21, h22, h23, h24⟩ := hw
  obtain ⟨b1, e1, l1, r1, d1⟩ := store_u32_spec
    (b := (List.range D.sizeof_FIFO_MSG).map E.indeterminate)
    (o := D.off_type) (v := D.FIFO_DH_REQ_MSG1) (by simp; omega) h19
  simp only [List.length_map, List.length_range] at l1
  obtain ⟨b2, e2, l2, r2, d2⟩ := store_u64_spec (b := b1) (o := D.off_size)
    (v := 0) (by omega) (by norm_num)
  refine ⟨b2, ?_, by omega, ?_, r2⟩
  · unfold session_request_message
    simp only [e1, e2, Option.bind_eq_bind, Option.some_bind]
  · rw [← r1]
    exact load_u32_congr (d2 _ _ (by omega))

/-- The request of `exchange_report_ocall` is built without leaving the block. -/
theorem exchange_report_message_spec {D : Decls} (hw : D.wf) {dh_msg2 : List Byte}
    (session_id : Nat) (hlen : D.sizeof_dh_msg2 ≤ dh_msg2.length) :
    ∃ msg, exchange_report_message D dh_msg2 session_id
        (size_t (D.sizeof_FIFO_MSG_HEADER + D.sizeof_SESSION_MSG2)) = some msg ∧
      msg.length = D.sizeof_FIFO_MSG_HEADER + D.sizeof_SESSION_MSG2 := by
  obtain ⟨h1, h2, h3, h4, h5, h6, h7, h8, h9, h10, h11, h12, h13, h14, h15, h16, h17, h18,
    h19, h20, h21, h22, h23, h24⟩ := hw
  have hS : size_t (D.sizeof_FIFO_MSG_HEADER + D.sizeof_SESSION_MSG2) =
      D.sizeof_FIFO_MSG_HEADER + D.sizeof_SESSION_MSG2 := Nat.mod_eq_of_lt h17
  obtain ⟨b1, e1, l1⟩ : ∃ b, store_u32 (memset0 (D.sizeof_FIFO_MSG_HEADER +
      D.sizeof_SESSION_MSG2)) D.off_type D.FIFO_DH_MSG2 = some b ∧
      b.length = D.sizeof_FIFO_MSG_HEADER + D.sizeof_SESSION_MSG2 := by
    have := store_spec (b := memset0 (D.sizeof_FIFO_MSG_HEADER + D.sizeof_SESSION_MSG2))
      (o := D.off_type) (s := encLE 4 D.FIFO_DH_MSG2)
      (by rw [length_memset0, length_encLE]; omega)
    obtain ⟨b, e, l, -⟩ := this
    exact ⟨b, e, by rw [l, length_memset0]⟩
  obtain ⟨b2, e2, l2, -⟩ := store_spec (b := b1) (o := D.off_size)
    (s := encLE 8 D.sizeof_SESSION_MSG2) (by rw [length_encLE]; omega)
  obtain ⟨b3, e3, l3, -⟩ := memcpy_spec (d := b2) (s := dh_msg2)
    (i := D.off_msgbuf + D.off_msg2_dh_msg2) (j := 0) (n := D.sizeof_dh_msg2)
    (by omega) (by omega)
  obtain ⟨b4, e4, l4, -⟩ := store_spec (b := b3) (o := D.off_msgbuf + D.off_msg2_sessionid)
    (s := encLE 4 session_id) (by rw [length_encLE]; omega)
  refine ⟨b4, ?_, by omega⟩
  unfold exchange_report_message
  simp only [hS, e1, e3, Option.bind_eq_bind, Option.some_bind]
  simp only [store_u64, e2, Option.some_bind, e3]
  exact e4

/-- The request of `end_session_ocall` is built without leaving the block. -/
theorem end_session_message_spec {D : Decls} (hw : D.wf) (session_id : Nat) :
    ∃ msg, end_session_message D session_id
        (size_t (D.sizeof_FIFO_MSG + D.sizeof_SESSION_CLOSE_REQ)) = some msg ∧
      msg.length = D.sizeof_FIFO_MSG + D.sizeof_SESSION_CLOSE_REQ := by
  obtain ⟨h1, h2, h3, h4, h5, h6, h7, h8, h9, h10, h11, h12, h13, h14, h15, h16, h17, h18,
    h19, h20, h21, h22, h23, h24⟩ := hw
  have hS : size_t (D.sizeof_FIFO_MSG + D.sizeof_SESSION_CLOSE_REQ) =
      D.sizeof_FIFO_MSG + D.sizeof_SESSION_CLOSE_REQ := Nat.mod_eq_of_lt h16
  obtain ⟨b1, e1, l1, -⟩ := store_spec
    (b := memset0 (D.sizeof_FIFO_MSG + D.sizeof_SESSION_CLOSE_REQ))
    (o := D.off_type) (s := encLE 4 D.FIFO_DH_CLOSE_REQ)
    (by rw [length_memset0, length_encLE]; omega)
  rw [length_memset0] at l1
  obtain ⟨b2, e2, l2, -⟩ := store_spec (b := b1) (o := D.off_size)
    (s := encLE 8 D.sizeof_SESSION_CLOSE_REQ) (by rw [length_encLE]; omega)
  obtain ⟨b3, e3, l3, -⟩ := store_spec (b := b2) (o := D.off_msgbuf + D.off_close_session_id)
    (s := encLE 4 session_id) (by rw [length_encLE]; omega)
  refine ⟨b3, ?_, by omega⟩
  unfold end_session_message
  simp only [hS, store_u32, store_u64, e1, e2, Option.bind_eq_bind, Option.some_bind]
  exact e3

/-- A request of `send_request_ocall` that was built lies inside the allocated block:
the request bytes end at or before `reqsize`. -/
theorem send_request_message_some {D : Decls} {session_id max_payload_size : Nat}
    {req_message : List Byte} {n reqsize : Nat} {msg : List Byte}
    (h : send_request_message D session_id req_message n max_payload_size reqsize = some msg) :
    D.off_msgbuf + D.off_req_buf + n ≤ reqsize ∧ n ≤ req_message.length ∧
      msg.length = reqsize := by
  unfold send_request_message at h
  simp only [Option.bind_eq_bind, Option.bind_eq_some] at h
  obtain ⟨b1, e1, b2, e2, b3, e3, b4, e4, b5, e5, e6⟩ := h
  have l1 := (store_u32_some e1).2
  have l2 := (store_u64_some e2).2
  have l3 := (store_u64_some e3).2
  have l4 := (store_u64_some e4).2
  have l5 := (store_u32_some e5).2
  have l6 := memcpy_some e6
  rw [length_memset0] at l1
  omega

/-- Whenever `send_request_ocall` built its request, exactly that request is handed to
the transport, once. -/
theorem send_request_ocall_calls_eq {D : Decls} {E : Env} {h : Heap} {session_id : Nat}
    {req_message : List Byte} {n max_payload_size : Nat} {resp_message : List Byte}
    {resp_message_size : Nat} {msg : List Byte}
    (hm : E.malloc_fails h (send_request_reqsize D n) = false)
    (hmsg : send_request_message D session_id req_message n max_payload_size
      (send_request_reqsize D n) = some msg) :
    (send_request_ocall D E h session_id req_message n max_payload_size resp_message
      resp_message_size).calls = [(msg, send_request_reqsize D n)] := by
  simp only [send_request_ocall, malloc_of_not_fails hm, hmsg]
  repeat' split
  all_goals rfl

theorem exchange_report_ocall_calls_eq {D : Decls} {E : Env} {h : Heap}
    {dh_msg2 dh_msg3 : List Byte} {session_id : Nat} {msg : List Byte}
    (hm : E.malloc_fails h (size_t (D.sizeof_FIFO_MSG_HEADER + D.sizeof_SESSION_MSG2)) = false)
    (hmsg : exchange_report_message D dh_msg2 session_id
      (size_t (D.sizeof_FIFO_MSG_HEADER + D.sizeof_SESSION_MSG2)) = some msg) :
    (exchange_report_ocall D E h dh_msg2 dh_msg3 session_id).calls =
      [(msg, size_t (D.sizeof_FIFO_MSG_HEADER + D.sizeof_SESSION_MSG2))] := by
  simp only [exchange_report_ocall, malloc_of_not_fails hm, hmsg]
  repeat' split
  all_goals rfl

theorem end_session_ocall_calls_eq {D : Decls} {E : Env} {h : Heap} {session_id : Nat}
    {msg : List Byte}
    (hm : E.malloc_fails h (size_t (D.sizeof_FIFO_MSG + D.sizeof_SESSION_CLOSE_REQ)) = false)
    (hmsg : end_session_message D session_id
      (size_t (D.sizeof_FIFO_MSG + D.sizeof_SESSION_CLOSE_REQ)) = some msg) :
    (end_session_ocall D E h session_id).calls =
      [(msg, size_t (D.sizeof_FIFO_MSG + D.sizeof_SESSION_CLOSE_REQ))] := by
  simp only [end_session_ocall, malloc_of_not_fails hm, hmsg]
  repeat' split
  all_goals rfl

theorem session_request_ocall_calls_eq {D : Decls} {E : Env} {h : Heap}
    {dh_msg1 : List Byte} {session_id : Nat} {msg : List Byte}
    (hmsg : session_request_message D E = some msg) :
    (session_request_ocall D E h dh_msg1 session_id).calls = [(msg, D.sizeof_FIFO_MSG)] := by
  simp only [session_request_ocall, hmsg]
  repeat' split
  all_goals rfl

/-- The path of `session_request_ocall` through a round-trip that returned `0` with a
reply from which both fields are read inside the reply. -/
theorem session_request_ocall_success {D : Decls} {E : Env} {h : Heap}
    {dh_msg1 : List Byte} {session_id : Nat} {msg resp out : List Byte} {sessionid : Nat}
    (hmsg : session_request_message D E = some msg)
    (hr : E.client_send_receive msg D.sizeof_FIFO_MSG = ⟨0, some resp⟩)
    (hcopy : memcpy dh_msg1 0 resp (D.off_msgbuf + D.off_resp1_dh_msg1) D.sizeof_dh_msg1 =
      some out)
    (hsid : load_u32 resp (D.off_msgbuf + D.off_resp1_sessionid) = some sessionid) :
    session_request_ocall D E h dh_msg1 session_id =
      ⟨.returned 0, (out, sessionid), h, [(msg, D.sizeof_FIFO_MSG)]⟩ := by
  simp only [session_request_ocall, hmsg, hr, receive, hcopy, hsid, free_alloc]
  simp

/-- The path of `exchange_report_ocall` through a round-trip that returned `0` with a
reply from which `dh_msg3` is read inside the reply. -/
theorem exchange_report_ocall_success {D : Decls} {E : Env} {h : Heap}
    {dh_msg2 dh_msg3 : List Byte} {session_id : Nat} {msg msg3 out : List Byte}
    (hm : E.malloc_fails h (size_t (D.sizeof_FIFO_MSG_HEADER + D.sizeof_SESSION_MSG2)) = false)
    (hmsg : exchange_report_message D dh_msg2 session_id
      (size_t (D.sizeof_FIFO_MSG_HEADER + D.sizeof_SESSION_MSG2)) = some msg)
    (hr : E.client_send_receive msg (size_t (D.sizeof_FIFO_MSG_HEADER + D.sizeof_SESSION_MSG2)) =
      ⟨0, some msg3⟩)
    (hcopy : memcpy dh_msg3 0 msg3 (D.off_msgbuf + D.off_msg3_dh_msg3) D.sizeof_dh_msg3 =
      some out) :
    exchange_report_ocall D E h dh_msg2 dh_msg3 session_id =
      ⟨.returned 0, out, h,
        [(msg, size_t (D.sizeof_FIFO_MSG_HEADER + D.sizeof_SESSION_MSG2))]⟩ := by
  simp only [exchange_report_ocall, malloc_of_not_fails hm, hmsg, hr, receive, hcopy,
    free2_reply_request]
  simp

/-- Whenever `exchange_report_ocall` hands a message to the transport, the allocation
succeeded, the message is the request that was built and the transmitted length is
`msg2size`. -/
theorem exchange_report_ocall_calls {D : Decls} {E : Env} {h : Heap}
    {dh_msg2 dh_msg3 : List Byte} {session_id : Nat} {msg : List Byte} {len : Nat}
    (hc : (msg, len) ∈ (exchange_report_ocall D E h dh_msg2 dh_msg3 session_id).calls) :
    E.malloc_fails h (size_t (D.sizeof_FIFO_MSG_HEADER + D.sizeof_SESSION_MSG2)) = false ∧
    exchange_report_message D dh_msg2 session_id
      (size_t (D.sizeof_FIFO_MSG_HEADER + D.sizeof_SESSION_MSG2)) = some msg ∧
    len = size_t (D.sizeof_FIFO_MSG_HEADER + D.sizeof_SESSION_MSG2) := by
  cases hm : E.malloc_fails h (size_t (D.sizeof_FIFO_MSG_HEADER + D.sizeof_SESSION_MSG2)) with
  | true =>
    simp [exchange_report_ocall, malloc_of_fails hm] at hc
  | false =>
    cases hmsg : exchange_report_message D dh_msg2 session_id
        (size_t (D.sizeof_FIFO_MSG_HEADER + D.sizeof_SESSION_MSG2)) with
    | none =>
      simp [exchange_report_ocall, malloc_of_not_fails hm, hmsg] at hc
    | some m =>
      rw [exchange_report_ocall_calls_eq hm hmsg] at hc
      simp at hc
      simp [hc]

/-- Whenever `session_request_ocall` hands a message to the transport, it is the stack
message that was built and the transmitted length is `sizeof(FIFO_MSG)`. -/
theorem session_request_ocall_calls {D : Decls} {E : Env} {h : Heap}
    {dh_msg1 : List Byte} {session_id : Nat} {msg : List Byte} {len : Nat}
    (hc : (msg, len) ∈ (session_request_ocall D E h dh_msg1 session_id).calls) :
    session_request_message D E = some msg ∧ len = D.sizeof_FIFO_MSG := by
  cases hmsg : session_request_message D E with
  | none =>
    simp [session_request_ocall, hmsg] at hc
  | some m =>
    rw [session_request_ocall_calls_eq hmsg] at hc
    simp at hc
    simp [hc]

/-- Without wrap-around `reqsize` is the sum of the three sizes. -/
theorem send_request_reqsize_eq {D : Decls} {n : Nat}
    (hn : D.sizeof_FIFO_MSG_HEADER + D.sizeof_FIFO_MSGBODY_REQ + n < 2 ^ 64) :
    send_request_reqsize D n = D.sizeof_FIFO_MSG_HEADER + D.sizeof_FIFO_MSGBODY_REQ + n := by
  unfold send_request_reqsize size_t
  rw [Nat.mod_eq_of_lt (show D.sizeof_FIFO_MSG_HEADER + D.sizeof_FIFO_MSGBODY_REQ < 2 ^ 64 by
    omega), Nat.mod_eq_of_lt hn]

theorem stored_zero_full {dst src : List Byte} (h : src.length = dst.length) :
    stored dst 0 src = src := by
  rw [stored, List.take_zero, List.nil_append, List.drop_of_length_le (by omega),
    List.append_nil]

/-- Release of the request block, then of a null reply pointer. -/
theorem free2_request_null (h : Heap) :
    free2 (alloc h).2 (some (alloc h).1) none = some h := by
  simp [free2, free, alloc]

/-- The path of `send_request_ocall` through a round-trip that returned `0` with a
reply that holds the body bytes to copy: the copy has `min(header.size,
resp_message_size)` bytes. -/
theorem send_request_ocall_round_trip {D : Decls} {E : Env} {h : Heap} {session_id : Nat}
    {req_message : List Byte} {n max_payload_size : Nat} {resp_message : List Byte}
    {resp_message_size : Nat} {msg : List Byte} {len : Nat} {reply : List Byte} {s : Nat}
    (hcall : (msg, len) ∈ (send_request_ocall D E h session_id req_message n
      max_payload_size resp_message resp_message_size).calls)
    (hreply : E.client_send_receive msg len = ⟨0, some reply⟩)
    (hsize : load_u64 reply D.off_size = some s)
    (hbody : D.off_msgbuf + min s resp_message_size ≤ reply.length)
    (hcap : resp_message_size ≤ resp_message.length) :
    send_request_ocall D E h session_id req_message n max_payload_size resp_message
      resp_message_size =
        ⟨.returned 0,
          stored resp_message 0 ((reply.drop D.off_msgbuf).take (min s resp_message_size)),
          h, [(msg, len)]⟩ := by
  obtain ⟨hm, hmsg, rfl⟩ := send_request_ocall_calls hcall
  have hmin : (if s < resp_message_size then s else resp_message_size) =
      min s resp_message_size := by
    split <;> omega
  obtain ⟨out, e, -, hout, -⟩ := memcpy_spec (d := resp_message) (s := reply)
    (i := 0) (j := D.off_msgbuf) (n := min s resp_message_size) hbody
    (by omega)
  have hcopy : send_request_copy D resp_message reply resp_message_size = some out := by
    rw [send_request_copy, hsize, Option.some_bind, hmin, e]
  rw [send_request_ocall_success hm hmsg hreply hcopy, hout]

/-! ## The claims -/

/-- C1: when `send_request_ocall` performed its round-trip, the transport returned `0`
with a reply whose header declares the body size `s` and which holds the first
`min s resp_message_size` body bytes, and the response buffer has the capacity
`resp_message_size`, the call returns success, the first `min s resp_message_size` bytes
of the response buffer are the first bytes of the reply body, and the bytes from index
`min s resp_message_size` on are unchanged. -/
theorem send_request_ocall_truncating_copy (D : Decls) (E : Env) (h : Heap)
    (session_id : Nat) (req_message : List Byte) (req_message_size max_payload_size : Nat)
    (resp_message : List Byte) (resp_message_size : Nat)
    (msg : List Byte) (len : Nat) (reply : List Byte) (s : Nat)
    (hcall : (msg, len) ∈ (send_request_ocall D E h session_id req_message req_message_size
      max_payload_size resp_message resp_message_size).calls)
    (hreply : E.client_send_receive msg len = ⟨0, some reply⟩)
    (hsize : load_u64 reply D.off_size = some s)
    (hbody : D.off_msgbuf + min s resp_message_size ≤ reply.length)
    (hcap : resp_message_size ≤ resp_message.length) :
    (send_request_ocall D E h session_id req_message req_message_size max_payload_size
      resp_message resp_message_size).exit = .returned 0 ∧
    (send_request_ocall D E h session_id req_message req_message_size max_payload_size
      resp_message resp_message_size).out.length = resp_message.length ∧
    (send_request_ocall D E h session_id req_message req_message_size max_payload_size
      resp_message resp_message_size).out.take (min s resp_message_size) =
        (reply.drop D.off_msgbuf).take (min s resp_message_size) ∧
    (send_request_ocall D E h session_id req_message req_message_size max_payload_size
      resp_message resp_message_size).out.drop (min s resp_message_size) =
        resp_message.drop (min s resp_message_size) := by
  rw [send_request_ocall_round_trip hcall hreply hsize hbody hcap]
  have hl : ((reply.drop D.off_msgbuf).take (min s resp_message_size)).length =
      min s resp_message_size := by
    rw [List.length_take, List.length_drop]; omega
  refine ⟨rfl, length_stored (by omega), ?_, ?_⟩
  · show (stored _ _ _).take _ = _
    rw [stored, List.take_zero, List.nil_append, List.take_append_of_le_length (by omega),
      List.take_of_length_le (by omega)]
  · show (stored _ _ _).drop _ = _
    rw [stored, List.take_zero, List.nil_append, List.drop_append_of_le_length (by omega),
      List.drop_of_length_le (by omega), List.nil_append, hl, Nat.zero_add]

/-- Witness of C1: a reply that declares six body bytes is copied into a response
buffer of capacity four. -/
theorem send_request_ocall_truncating_copy_witness :
    (send_request_ocall sgxDecls (constEnv ⟨0, some (sgxReply 5 6 [10, 11, 12, 13, 14, 15])⟩)
      [] 7 [1, 2, 3] 3 16 (memset0 4) 4).exit = .returned 0 ∧
    (send_request_ocall sgxDecls (constEnv ⟨0, some (sgxReply 5 6 [10, 11, 12, 13, 14, 15])⟩)
      [] 7 [1, 2, 3] 3 16 (memset0 4) 4).out.length = (memset0 4).length ∧
    (send_request_ocall sgxDecls (constEnv ⟨0, some (sgxReply 5 6 [10, 11, 12, 13, 14, 15])⟩)
      [] 7 [1, 2, 3] 3 16 (memset0 4) 4).out.take (min 6 4) =
        ((sgxReply 5 6 [10, 11, 12, 13, 14, 15]).drop sgxDecls.off_msgbuf).take (min 6 4) ∧
    (send_request_ocall sgxDecls (constEnv ⟨0, some (sgxReply 5 6 [10, 11, 12, 13, 14, 15])⟩)
      [] 7 [1, 2, 3] 3 16 (memset0 4) 4).out.drop (min 6 4) = (memset0 4).drop (min 6 4) :=
  send_request_ocall_truncating_copy sgxDecls
    (constEnv ⟨0, some (sgxReply 5 6 [10, 11, 12, 13, 14, 15])⟩) [] 7 [1, 2, 3] 3 16
    (memset0 4) 4 sgxRequest 43 (sgxReply 5 6 [10, 11, 12, 13, 14, 15]) 6
    (by decide) rfl (by decide) (by decide) (by decide)

/-- C2: at a round-trip that returned `0` with a null reply pointer, only
`session_request_ocall` returns `INVALID_SESSION`; `end_session_ocall` returns success,
and `exchange_report_ocall` and `send_request_ocall` go on to read the reply through the
null pointer. -/
theorem null_reply_only_checked_by_session_request :
    (session_request_ocall sgxDecls (constEnv ⟨0, none⟩) [] (memset0 576) 0).exit =
      .returned sgxDecls.INVALID_SESSION ∧
    (end_session_ocall sgxDecls (constEnv ⟨0, none⟩) [] 7).exit = .returned 0 ∧
    (exchange_report_ocall sgxDecls (constEnv ⟨0, none⟩) [] (memset0 512) (memset0 452) 7).exit =
      .fault .null_deref ∧
    (send_request_ocall sgxDecls (constEnv ⟨0, none⟩) [] 7 [1, 2, 3] 3 16 (memset0 16) 16).exit =
      .fault .null_deref := by
  refine ⟨by decide, by decide, ?_, by decide⟩
  set_option maxRecDepth 100000 in decide

/-- Counterexample to C3: a round-trip that fails and still hands back a reply buffer
leaves that buffer live; `session_request_ocall` and `exchange_report_ocall` return
`INVALID_SESSION` with one more live block than before the call. -/
theorem failed_round_trip_with_reply_leaks :
    (session_request_ocall sgxDecls (constEnv ⟨-1, some []⟩) [] (memset0 576) 0).exit =
      .returned sgxDecls.INVALID_SESSION ∧
    (session_request_ocall sgxDecls (constEnv ⟨-1, some []⟩) [] (memset0 576) 0).heap = [1] ∧
    (exchange_report_ocall sgxDecls (constEnv ⟨-1, some []⟩) [] (memset0 512) (memset0 452)
      7).exit = .returned sgxDecls.INVALID_SESSION ∧
    (exchange_report_ocall sgxDecls (constEnv ⟨-1, some []⟩) [] (memset0 512) (memset0 452)
      7).heap = [2] := by
  refine ⟨by decide, by decide, ?_, ?_⟩
  · set_option maxRecDepth 100000 in decide
  · set_option maxRecDepth 100000 in decide

/-- C3, amended: when the transport hands back a reply buffer only together with the
return value `0`, each of the four calls leaves the heap as it was whenever it returns
(the request block and the reply block it obtained are released once), and no call
releases a block that is not live. -/
theorem buffers_released_exactly_once (D : Decls) (E : Env) (h : Heap) (session_id : Nat)
    (hE : ∀ msg len, (E.client_send_receive msg len).ret ≠ 0 →
      (E.client_send_receive msg len).reply = none) :
    (∀ dh_msg1 : List Byte,
      (session_request_ocall D E h dh_msg1 session_id).buffers_released h) ∧
    (∀ dh_msg2 dh_msg3 : List Byte,
      (exchange_report_ocall D E h dh_msg2 dh_msg3 session_id).buffers_released h) ∧
    (∀ (req_message : List Byte) (req_message_size max_payload_size : Nat)
        (resp_message : List Byte) (resp_message_size : Nat),
      (send_request_ocall D E h session_id req_message req_message_size max_payload_size
        resp_message resp_message_size).buffers_released h) ∧
    (end_session_ocall D E h session_id).buffers_released h := by
  refine ⟨?_, ?_, ?_, ?_⟩
  · intro dh_msg1
    cases hmsg : session_request_message D E with
    | none => simp [Final.buffers_released, session_request_ocall, hmsg]
    | some m =>
      have hr := hE m D.sizeof_FIFO_MSG
      rcases hE : E.client_send_receive m D.sizeof_FIFO_MSG with ⟨ret, reply⟩
      rw [hE] at hr
      simp only [session_request_ocall, hmsg, hE]
      by_cases hret : ret = 0
      · cases reply with
        | none => simp [Final.buffers_released, hret, receive]
        | some resp =>
          simp only [hret, ne_eq, not_true_eq_false, if_false, receive, free_alloc]
          repeat' split
          all_goals simp [Final.buffers_released]
      · have hrep : reply = none := hr hret
        simp [Final.buffers_released, hret, hrep, receive]
  · intro dh_msg2 dh_msg3
    cases hm : E.malloc_fails h (size_t (D.sizeof_FIFO_MSG_HEADER + D.sizeof_SESSION_MSG2)) with
    | true => simp [Final.buffers_released, exchange_report_ocall, malloc_of_fails hm]
    | false =>
      cases hmsg : exchange_report_message D dh_msg2 session_id
          (size_t (D.sizeof_FIFO_MSG_HEADER + D.sizeof_SESSION_MSG2)) with
      | none =>
        simp [Final.buffers_released, exchange_report_ocall, malloc_of_not_fails hm, hmsg]
      | some m =>
        have hr := hE m (size_t (D.sizeof_FIFO_MSG_HEADER + D.sizeof_SESSION_MSG2))
        rcases hE : E.client_send_receive m
          (size_t (D.sizeof_FIFO_MSG_HEADER + D.sizeof_SESSION_MSG2)) with ⟨ret, reply⟩
        rw [hE] at hr
        simp only [exchange_report_ocall, malloc_of_not_fails hm, hmsg, hE]
        by_cases hret : ret = 0
        · cases reply with
          | none => simp [Final.buffers_released, hret]
          | some resp =>
            simp only [hret, ne_eq, not_true_eq_false, if_false, receive, free2_reply_request]
            repeat' split
            all_goals simp [Final.buffers_released]
        · have hrep : reply = none := hr hret
          simp [Final.buffers_released, hret, hrep, receive, free_alloc]
  · intro req_message req_message_size max_payload_size resp_message resp_message_size
    cases hm : E.malloc_fails h (send_request_reqsize D req_message_size) with
    | true => simp [Final.buffers_released, send_request_ocall, malloc_of_fails hm]
    | false =>
      cases hmsg : send_request_message D session_id req_message req_message_size
          max_payload_size (send_request_reqsize D req_message_size) with
      | none =>
        simp [Final.buffers_released, send_request_ocall, malloc_of_not_fails hm, hmsg]
      | some m =>
        have hr := hE m (send_request_reqsize D req_message_size)
        rcases hE : E.client_send_receive m (send_request_reqsize D req_message_size)
          with ⟨ret, reply⟩
        rw [hE] at hr
        simp only [send_request_ocall, malloc_of_not_fails hm, hmsg, hE]
        by_cases hret : ret = 0
        · cases reply with
          | none => simp [Final.buffers_released, hret]
          | some resp =>
            simp only [hret, ne_eq, not_true_eq_false, if_false, receive, free2_reply_request]
            repeat' split
            all_goals simp [Final.buffers_released]
        · have hrep : reply = none := hr hret
          simp [Final.buffers_released, hret, hrep, receive, free_alloc]
  · cases hm : E.malloc_fails h (size_t (D.sizeof_FIFO_MSG + D.sizeof_SESSION_CLOSE_REQ)) with
    | true => simp [Final.buffers_released, end_session_ocall, malloc_of_fails hm]
    | false =>
      cases hmsg : end_session_message D session_id
          (size_t (D.sizeof_FIFO_MSG + D.sizeof_SESSION_CLOSE_REQ)) with
      | none =>
        simp [Final.buffers_released, end_session_ocall, malloc_of_not_fails hm, hmsg]
      | some m =>
        have hr := hE m (size_t (D.sizeof_FIFO_MSG + D.sizeof_SESSION_CLOSE_REQ))
        rcases hE : E.client_send_receive m
          (size_t (D.sizeof_FIFO_MSG + D.sizeof_SESSION_CLOSE_REQ)) with ⟨ret, reply⟩
        rw [hE] at hr
        simp only [end_session_ocall, malloc_of_not_fails hm, hmsg, hE]
        by_cases hret : ret = 0
        · cases reply with
          | none => simp [Final.buffers_released, hret, receive, free2_request_null]
          | some resp =>
            simp [Final.buffers_released, hret, receive, free2_request_reply]
        · have hrep : reply = none := hr hret
          simp [Final.buffers_released, hret, hrep, receive, free_alloc]

/-- Witness of C3: with a transport that returns `0` and a reply, `end_session_ocall`
returns success and the heap is as before. -/
theorem buffers_released_exactly_once_witness :
    (end_session_ocall sgxDecls (constEnv ⟨0, some (sgxReply 7 0 [])⟩) [] 7).exit =
      .returned 0 ∧
    (end_session_ocall sgxDecls (constEnv ⟨0, some (sgxReply 7 0 [])⟩) [] 7).buffers_released
      [] :=
  ⟨by decide,
    (buffers_released_exactly_once sgxDecls (constEnv ⟨0, some (sgxReply 7 0 [])⟩) [] 7
      (fun _ _ hne => absurd rfl hne)).2.2.2⟩

/-- Counterexample to C4: replies whose declared body size differs from the number of
body bytes received are accepted. `send_request_ocall` returns success on a reply that
declares `2` body bytes and carries `3`, `session_request_ocall` on a reply that
declares `0` body bytes and carries `580`, `exchange_report_ocall` on a reply that
declares `453` body bytes and carries `452`. -/
theorem mismatched_body_size_accepted :
    load_u64 (sgxReply 5 2 [0xAA, 0xBB, 0xCC]) sgxDecls.off_size = some 2 ∧
    (sgxReply 5 2 [0xAA, 0xBB, 0xCC]).length = sgxDecls.off_msgbuf + 3 ∧
    (send_request_ocall sgxDecls (constEnv ⟨0, some (sgxReply 5 2 [0xAA, 0xBB, 0xCC])⟩) []
      7 [1, 2, 3] 3 16 (memset0 16) 16).exit = .returned 0 ∧
    (session_request_ocall sgxDecls (constEnv ⟨0, some (sgxReply 1 0 (memset0 580))⟩) []
      (memset0 576) 0).exit = .returned 0 ∧
    (exchange_report_ocall sgxDecls (constEnv ⟨0, some (sgxReply 3 453 (memset0 452))⟩) []
      (memset0 512) (memset0 452) 7).exit = .returned 0 := by
  refine ⟨by decide, by decide, by decide, ?_, ?_⟩
  · set_option maxRecDepth 100000 in decide
  · set_option maxRecDepth 100000 in decide

/-- C4, amended: no call compares the body size declared in the reply header with the
number of bytes received. After a round-trip that returned `0` with a reply,
`session_request_ocall` returns success whenever the received reply holds the
`dh_msg1` and `sessionid` members, `exchange_report_ocall` whenever it holds the
`dh_msg3` member, and `send_request_ocall` whenever it holds the
`min(header.size, resp_message_size)` body bytes that are copied; the declared body size
need not equal the received length. -/
theorem reply_size_not_checked (D : Decls) (E : Env) (h : Heap) (session_id : Nat)
    (msg : List Byte) (len : Nat) (reply : List Byte)
    (hreply : E.client_send_receive msg len = ⟨0, some reply⟩) :
    (∀ dh_msg1 : List Byte,
      (msg, len) ∈ (session_request_ocall D E h dh_msg1 session_id).calls →
      D.off_msgbuf + D.off_resp1_dh_msg1 + D.sizeof_dh_msg1 ≤ reply.length →
      D.off_msgbuf + D.off_resp1_sessionid + 4 ≤ reply.length →
      D.sizeof_dh_msg1 ≤ dh_msg1.length →
      (session_request_ocall D E h dh_msg1 session_id).exit = .returned 0) ∧
    (∀ dh_msg2 dh_msg3 : List Byte,
      (msg, len) ∈ (exchange_report_ocall D E h dh_msg2 dh_msg3 session_id).calls →
      D.off_msgbuf + D.off_msg3_dh_msg3 + D.sizeof_dh_msg3 ≤ reply.length →
      D.sizeof_dh_msg3 ≤ dh_msg3.length →
      (exchange_report_ocall D E h dh_msg2 dh_msg3 session_id).exit = .returned 0) ∧
    (∀ (req_message : List Byte) (req_message_size max_payload_size : Nat)
        (resp_message : List Byte) (resp_message_size s : Nat),
      (msg, len) ∈ (send_request_ocall D E h session_id req_message req_message_size
        max_payload_size resp_message resp_message_size).calls →
      load_u64 reply D.off_size = some s →
      D.off_msgbuf + min s resp_message_size ≤ reply.length →
      resp_message_size ≤ resp_message.length →
      (send_request_ocall D E h session_id req_message req_message_size max_payload_size
        resp_message resp_message_size).exit = .returned 0) := by
  refine ⟨?_, ?_, ?_⟩
  · intro dh_msg1 hc h1 h2 h3
    obtain ⟨hmsg, rfl⟩ := session_request_ocall_calls hc
    obtain ⟨out, e, -⟩ := memcpy_spec (d := dh_msg1) (s := reply) (i := 0)
      (j := D.off_msgbuf + D.off_resp1_dh_msg1) (n := D.sizeof_dh_msg1) h1 (by omega)
    have hsid : load_u32 reply (D.off_msgbuf + D.off_resp1_sessionid) =
        some (decLE ((reply.drop (D.off_msgbuf + D.off_resp1_sessionid)).take 4)) := by
      rw [load_u32, load_eq h2, Option.map_some']
    rw [session_request_ocall_success hmsg hreply e hsid]
  · intro dh_msg2 dh_msg3 hc h1 h2
    obtain ⟨hm, hmsg, rfl⟩ := exchange_report_ocall_calls hc
    obtain ⟨out, e, -⟩ := memcpy_spec (d := dh_msg3) (s := reply) (i := 0)
      (j := D.off_msgbuf + D.off_msg3_dh_msg3) (n := D.sizeof_dh_msg3) h1 (by omega)
    rw [exchange_report_ocall_success hm hmsg hreply e]
  · intro req_message req_message_size max_payload_size resp_message resp_message_size s
      hc hsize hbody hcap
    rw [send_request_ocall_round_trip hc hreply hsize hbody hcap]

/-- Witness of C4: the reply declares `2` body bytes and carries `3`. -/
theorem reply_size_not_checked_witness :
    (send_request_ocall sgxDecls (constEnv ⟨0, some (sgxReply 5 2 [0xAA, 0xBB, 0xCC])⟩) []
      7 [1, 2, 3] 3 16 (memset0 16) 16).exit = .returned 0 :=
  (reply_size_not_checked sgxDecls (constEnv ⟨0, some (sgxReply 5 2 [0xAA, 0xBB, 0xCC])⟩) [] 7
    sgxRequest 43 (sgxReply 5 2 [0xAA, 0xBB, 0xCC]) rfl).2.2 [1, 2, 3] 3 16 (memset0 16) 16 2
    (by decide) (by decide) (by decide) (by decide)

/-- C5: when every round-trip a call performs fails (the transport returns a non-zero
value or hands back no reply), `session_request_ocall` leaves `*dh_msg1` and
`*session_id` as they were, `exchange_report_ocall` leaves `*dh_msg3` as it was and
`send_request_ocall` leaves every byte of `*resp_message` as it was. -/
theorem transport_failure_leaves_outputs (D : Decls) (E : Env) (h : Heap) (session_id : Nat) :
    (∀ dh_msg1 : List Byte,
      (∀ msg len, (msg, len) ∈ (session_request_ocall D E h dh_msg1 session_id).calls →
        (E.client_send_receive msg len).ret ≠ 0 ∨ (E.client_send_receive msg len).reply = none) →
      (session_request_ocall D E h dh_msg1 session_id).out = (dh_msg1, session_id)) ∧
    (∀ dh_msg2 dh_msg3 : List Byte,
      (∀ msg len, (msg, len) ∈ (exchange_report_ocall D E h dh_msg2 dh_msg3 session_id).calls →
        (E.client_send_receive msg len).ret ≠ 0 ∨ (E.client_send_receive msg len).reply = none) →
      (exchange_report_ocall D E h dh_msg2 dh_msg3 session_id).out = dh_msg3) ∧
    (∀ (req_message : List Byte) (req_message_size max_payload_size : Nat)
        (resp_message : List Byte) (resp_message_size : Nat),
      (∀ msg len, (msg, len) ∈ (send_request_ocall D E h session_id req_message
          req_message_size max_payload_size resp_message resp_message_size).calls →
        (E.client_send_receive msg len).ret ≠ 0 ∨ (E.client_send_receive msg len).reply = none) →
      (send_request_ocall D E h session_id req_message req_message_size max_payload_size
        resp_message resp_message_size).out = resp_message) := by
  refine ⟨?_, ?_, ?_⟩
  · intro dh_msg1 hE
    cases hmsg : session_request_message D E with
    | none => simp [session_request_ocall, hmsg]
    | some m =>
      have hr := hE m D.sizeof_FIFO_MSG (by rw [session_request_ocall_calls_eq hmsg]; simp)
      rcases hE : E.client_send_receive m D.sizeof_FIFO_MSG with ⟨ret, reply⟩
      rw [hE] at hr
      simp only [session_request_ocall, hmsg, hE]
      by_cases hret : ret = 0
      · have hrep : reply = none := by simpa [hret] using hr
        simp [hret, hrep]
      · simp [hret]
  · intro dh_msg2 dh_msg3 hE
    cases hm : E.malloc_fails h (size_t (D.sizeof_FIFO_MSG_HEADER + D.sizeof_SESSION_MSG2)) with
    | true => simp [exchange_report_ocall, malloc_of_fails hm]
    | false =>
      cases hmsg : exchange_report_message D dh_msg2 session_id
          (size_t (D.sizeof_FIFO_MSG_HEADER + D.sizeof_SESSION_MSG2)) with
      | none => simp [exchange_report_ocall, malloc_of_not_fails hm, hmsg]
      | some m =>
        have hr := hE m (size_t (D.sizeof_FIFO_MSG_HEADER + D.sizeof_SESSION_MSG2))
          (by rw [exchange_report_ocall_calls_eq hm hmsg]; simp)
        rcases hE : E.client_send_receive m
          (size_t (D.sizeof_FIFO_MSG_HEADER + D.sizeof_SESSION_MSG2)) with ⟨ret, reply⟩
        rw [hE] at hr
        simp only [exchange_report_ocall, malloc_of_not_fails hm, hmsg, hE]
        by_cases hret : ret = 0
        · have hrep : reply = none := by simpa [hret] using hr
          simp [hret, hrep]
        · simp only [ne_eq, hret, not_false_eq_true, if_true]
          split <;> rfl
  · intro req_message req_message_size max_payload_size resp_message resp_message_size hE
    cases hm : E.malloc_fails h (send_request_reqsize D req_message_size) with
    | true => simp [send_request_ocall, malloc_of_fails hm]
    | false =>
      cases hmsg : send_request_message D session_id req_message req_message_size
          max_payload_size (send_request_reqsize D req_message_size) with
      | none => simp [send_request_ocall, malloc_of_not_fails hm, hmsg]
      | some m =>
        have hr := hE m (send_request_reqsize D req_message_size)
          (by rw [send_request_ocall_calls_eq hm hmsg]; simp)
        rcases hE : E.client_send_receive m (send_request_reqsize D req_message_size)
          with ⟨ret, reply⟩
        rw [hE] at hr
        simp only [send_request_ocall, malloc_of_not_fails hm, hmsg, hE]
        by_cases hret : ret = 0
        · have hrep : reply = none := by simpa [hret] using hr
          simp [hret, hrep]
        · simp only [ne_eq, hret, not_false_eq_true, if_true]
          split <;> rfl

/-- Witness of C5: the transport returns `-1` and no reply. -/
theorem transport_failure_leaves_outputs_witness :
    (session_request_ocall sgxDecls (constEnv ⟨-1, none⟩) [] [1, 2, 3] 7).out =
      ([1, 2, 3], 7) ∧
    (exchange_report_ocall sgxDecls (constEnv ⟨-1, none⟩) [] [4, 5] [6, 7] 7).out = [6, 7] ∧
    (send_request_ocall sgxDecls (constEnv ⟨-1, none⟩) [] 7 [1, 2, 3] 3 16 [8, 9] 2).out =
      [8, 9] :=
  ⟨(transport_failure_leaves_outputs sgxDecls (constEnv ⟨-1, none⟩) [] 7).1 [1, 2, 3]
      (fun _ _ _ => Or.inl (show (-1 : Int) ≠ 0 by decide)),
    (transport_failure_leaves_outputs sgxDecls (constEnv ⟨-1, none⟩) [] 7).2.1 [4, 5] [6, 7]
      (fun _ _ _ => Or.inl (show (-1 : Int) ≠ 0 by decide)),
    (transport_failure_leaves_outputs sgxDecls (constEnv ⟨-1, none⟩) [] 7).2.2 [1, 2, 3] 3 16
      [8, 9] 2 (fun _ _ _ => Or.inl (show (-1 : Int) ≠ 0 by decide))⟩

/-- C6: for a 32-bit `session_id`, a `size_t` `max_payload_size` and a request of
`req_message_size` bytes, every message `send_request_ocall` hands to the transport has
the kind `FIFO_DH_MSG_REQ`, the body size `sizeof(FIFO_MSGBODY_REQ) + req_message_size`,
the transmitted length `sizeof(FIFO_MSG_HEADER)` plus that body size, the metadata
fields `session_id`, `max_payload_size` and `req_message_size`, and then the request
bytes; and such a message is handed over whenever the allocation succeeds and the
envelope size is a `size_t` value. -/
theorem send_request_ocall_sends_encrypted_request (D : Decls) (E : Env) (h : Heap)
    (session_id : Nat) (req_message : List Byte) (req_message_size max_payload_size : Nat)
    (resp_message : List Byte) (resp_message_size : Nat)
    (hw : D.wf) (hsid : session_id < 2 ^ 32) (hmax : max_payload_size < 2 ^ 64)
    (hreq : req_message.length = req_message_size) :
    (∀ msg len, (msg, len) ∈ (send_request_ocall D E h session_id req_message
        req_message_size max_payload_size resp_message resp_message_size).calls →
      len = D.sizeof_FIFO_MSG_HEADER + (D.sizeof_FIFO_MSGBODY_REQ + req_message_size) ∧
      msg.length = len ∧
      load_u32 msg D.off_type = some D.FIFO_DH_MSG_REQ ∧
      load_u64 msg D.off_size = some (D.sizeof_FIFO_MSGBODY_REQ + req_message_size) ∧
      load_u32 msg (D.off_msgbuf + D.off_req_session_id) = some session_id ∧
      load_u64 msg (D.off_msgbuf + D.off_req_max_payload_size) = some max_payload_size ∧
      load_u64 msg (D.off_msgbuf + D.off_req_size) = some req_message_size ∧
      load msg (D.off_msgbuf + D.off_req_buf) req_message_size = some req_message) ∧
    (E.malloc_fails h (send_request_reqsize D req_message_size) = false →
      D.sizeof_FIFO_MSG_HEADER + D.sizeof_FIFO_MSGBODY_REQ + req_message_size < 2 ^ 64 →
      ∃ msg, (send_request_ocall D E h session_id req_message req_message_size
        max_payload_size resp_message resp_message_size).calls =
          [(msg, D.sizeof_FIFO_MSG_HEADER + (D.sizeof_FIFO_MSGBODY_REQ + req_message_size))]) := by
  have hS : ∀ n, D.sizeof_FIFO_MSG_HEADER + D.sizeof_FIFO_MSGBODY_REQ + n < 2 ^ 64 →
      send_request_reqsize D n = D.sizeof_FIFO_MSG_HEADER + D.sizeof_FIFO_MSGBODY_REQ + n :=
    fun n hn => send_request_reqsize_eq hn
  constructor
  · intro msg len hc
    obtain ⟨-, hmsg, rfl⟩ := send_request_ocall_calls hc
    have hb := send_request_message_some hmsg
    have hle : send_request_reqsize D req_message_size ≤
        D.sizeof_FIFO_MSG_HEADER + D.sizeof_FIFO_MSGBODY_REQ + req_message_size := by
      unfold send_request_reqsize size_t
      exact le_trans (Nat.mod_le _ _) (Nat.add_le_add_right (Nat.mod_le _ _) _)
    have hoff : D.off_msgbuf + D.off_req_buf =
        D.sizeof_FIFO_MSG_HEADER + D.sizeof_FIFO_MSGBODY_REQ := by
      obtain ⟨-, -, -, h4, -, -, -, -, -, -, -, -, -, h14, -⟩ := hw
      omega
    have hn : D.sizeof_FIFO_MSG_HEADER + D.sizeof_FIFO_MSGBODY_REQ + req_message_size <
        2 ^ 64 := by
      have hlt : send_request_reqsize D req_message_size < 2 ^ 64 := by
        unfold send_request_reqsize size_t
        exact Nat.mod_lt _ (by norm_num)
      omega
    obtain ⟨m, e, l, r1, r2, r3, r4, r5, r6⟩ := send_request_message_spec hw hsid hmax
      (le_of_eq hreq.symm) hn
    rw [hmsg] at e
    cases e
    rw [hS _ hn]
    refine ⟨by omega, by omega, r1, r2, r3, r4, r5, ?_⟩
    rw [r6, ← hreq, List.take_length]
  · intro hm hn
    obtain ⟨m, e, -⟩ := send_request_message_spec hw hsid hmax (le_of_eq hreq.symm) hn
    refine ⟨m, ?_⟩
    rw [send_request_ocall_calls_eq hm e, hS _ hn, Nat.add_assoc]

/-- Witness of C6: the request `1, 2, 3` of session `7` is sent as `sgxRequest`. -/
theorem send_request_ocall_sends_encrypted_request_witness :
    (43 = sgxDecls.sizeof_FIFO_MSG_HEADER + (sgxDecls.sizeof_FIFO_MSGBODY_REQ + 3) ∧
      sgxRequest.length = 43 ∧
      load_u32 sgxRequest sgxDecls.off_type = some sgxDecls.FIFO_DH_MSG_REQ ∧
      load_u64 sgxRequest sgxDecls.off_size = some (sgxDecls.sizeof_FIFO_MSGBODY_REQ + 3) ∧
      load_u32 sgxRequest (sgxDecls.off_msgbuf + sgxDecls.off_req_session_id) = some 7 ∧
      load_u64 sgxRequest (sgxDecls.off_msgbuf + sgxDecls.off_req_max_payload_size) =
        some 16 ∧
      load_u64 sgxRequest (sgxDecls.off_msgbuf + sgxDecls.off_req_size) = some 3 ∧
      load sgxRequest (sgxDecls.off_msgbuf + sgxDecls.off_req_buf) 3 = some [1, 2, 3]) ∧
    ∃ msg, (send_request_ocall sgxDecls (constEnv ⟨0, none⟩) [] 7 [1, 2, 3] 3 16
      (memset0 16) 16).calls =
        [(msg, sgxDecls.sizeof_FIFO_MSG_HEADER + (sgxDecls.sizeof_FIFO_MSGBODY_REQ + 3))] :=
  ⟨(send_request_ocall_sends_encrypted_request sgxDecls (constEnv ⟨0, none⟩) [] 7 [1, 2, 3] 3
      16 (memset0 16) 16 (by decide) (by decide) (by decide) rfl).1 sgxRequest 43 (by decide),
    (send_request_ocall_sends_encrypted_request sgxDecls (constEnv ⟨0, none⟩) [] 7 [1, 2, 3] 3
      16 (memset0 16) 16 (by decide) (by decide) (by decide) rfl).2 rfl (by decide)⟩

/-- C7: when the allocation of the request fails, `exchange_report_ocall`,
`send_request_ocall` and `end_session_ocall` return `ERROR_OUT_OF_MEMORY`, hand nothing
to the transport, and leave the caller's output buffer and the heap as they were. -/
theorem allocation_failure_returns_out_of_memory (D : Decls) (E : Env) (h : Heap)
    (session_id : Nat) :
    (∀ dh_msg2 dh_msg3 : List Byte,
      E.malloc_fails h (size_t (D.sizeof_FIFO_MSG_HEADER + D.sizeof_SESSION_MSG2)) = true →
      exchange_report_ocall D E h dh_msg2 dh_msg3 session_id =
        ⟨.returned D.ERROR_OUT_OF_MEMORY, dh_msg3, h, []⟩) ∧
    (∀ (req_message : List Byte) (req_message_size max_payload_size : Nat)
        (resp_message : List Byte) (resp_message_size : Nat),
      E.malloc_fails h (send_request_reqsize D req_message_size) = true →
      send_request_ocall D E h session_id req_message req_message_size max_payload_size
        resp_message resp_message_size =
          ⟨.returned D.ERROR_OUT_OF_MEMORY, resp_message, h, []⟩) ∧
    (E.malloc_fails h (size_t (D.sizeof_FIFO_MSG + D.sizeof_SESSION_CLOSE_REQ)) = true →
      end_session_ocall D E h session_id = ⟨.returned D.ERROR_OUT_OF_MEMORY, (), h, []⟩) := by
  refine ⟨?_, ?_, ?_⟩
  · intro dh_msg2 dh_msg3 hm
    simp [exchange_report_ocall, malloc_of_fails hm]
  · intro req_message req_message_size max_payload_size resp_message resp_message_size hm
    simp [send_request_ocall, malloc_of_fails hm]
  · intro hm
    simp [end_session_ocall, malloc_of_fails hm]

/-- Witness of C7: with an allocator that fails, the three calls return
`ERROR_OUT_OF_MEMORY`. -/
theorem allocation_failure_returns_out_of_memory_witness :
    exchange_report_ocall sgxDecls noMemoryEnv [] [4, 5] [6, 7] 7 =
      ⟨.returned sgxDecls.ERROR_OUT_OF_MEMORY, [6, 7], [], []⟩ ∧
    send_request_ocall sgxDecls noMemoryEnv [] 7 [1, 2, 3] 3 16 [8, 9] 2 =
      ⟨.returned sgxDecls.ERROR_OUT_OF_MEMORY, [8, 9], [], []⟩ ∧
    end_session_ocall sgxDecls noMemoryEnv [] 7 =
      ⟨.returned sgxDecls.ERROR_OUT_OF_MEMORY, (), [], []⟩ :=
  ⟨(allocation_failure_returns_out_of_memory sgxDecls noMemoryEnv [] 7).1 [4, 5] [6, 7] rfl,
    (allocation_failure_returns_out_of_memory sgxDecls noMemoryEnv [] 7).2.1 [1, 2, 3] 3 16
      [8, 9] 2 rfl,
    (allocation_failure_returns_out_of_memory sgxDecls noMemoryEnv [] 7).2.2 rfl⟩

/-- C8: `session_request_ocall` hands one message of `sizeof(FIFO_MSG)` bytes to the
transport, of kind `FIFO_DH_REQ_MSG1` and body size `0`; when the transport returns `0`
with a reply whose body holds the message `m1` and the session id `sid`, the call
returns success with `*dh_msg1 = m1` and `*session_id = sid`. -/
theorem session_request_ocall_returns_reply_fields (D : Decls) (E : Env) (h : Heap)
    (dh_msg1 : List Byte) (session_id : Nat) (hw : D.wf) :
    ∃ msg, (session_request_ocall D E h dh_msg1 session_id).calls =
        [(msg, D.sizeof_FIFO_MSG)] ∧
      msg.length = D.sizeof_FIFO_MSG ∧
      load_u32 msg D.off_type = some D.FIFO_DH_REQ_MSG1 ∧
      load_u64 msg D.off_size = some 0 ∧
      ∀ (reply m1 : List Byte) (sid : Nat),
        E.client_send_receive msg D.sizeof_FIFO_MSG = ⟨0, some reply⟩ →
        load reply (D.off_msgbuf + D.off_resp1_dh_msg1) D.sizeof_dh_msg1 = some m1 →
        load_u32 reply (D.off_msgbuf + D.off_resp1_sessionid) = some sid →
        dh_msg1.length = D.sizeof_dh_msg1 →
        (session_request_ocall D E h dh_msg1 session_id).exit = .returned 0 ∧
        (session_request_ocall D E h dh_msg1 session_id).out = (m1, sid) := by
  obtain ⟨msg, hmsg, l, r1, r2⟩ := session_request_message_spec hw E
  refine ⟨msg, session_request_ocall_calls_eq hmsg, l, r1, r2, ?_⟩
  intro reply m1 sid hr hm1 hsid hlen
  have hl := (load_length hm1).2
  have hcopy : memcpy dh_msg1 0 reply (D.off_msgbuf + D.off_resp1_dh_msg1) D.sizeof_dh_msg1 =
      some m1 := by
    rw [memcpy, hm1, Option.some_bind, store_eq (by omega), stored_zero_full (by omega)]
  rw [session_request_ocall_success hmsg hr hcopy hsid]
  exact ⟨rfl, rfl⟩

/-- Witness of C8: the reply carries a `dh_msg1` of `576` bytes `0xAB` and the session
id `7`. -/
theorem session_request_ocall_returns_reply_fields_witness :
    (session_request_ocall sgxDecls
      (constEnv ⟨0, some (sgxReply 1 580 (List.replicate 576 0xAB ++ encLE 4 7))⟩) []
      (memset0 576) 0).exit = .returned 0 ∧
    (session_request_ocall sgxDecls
      (constEnv ⟨0, some (sgxReply 1 580 (List.replicate 576 0xAB ++ encLE 4 7))⟩) []
      (memset0 576) 0).out = (List.replicate 576 0xAB, 7) := by
  obtain ⟨msg, -, -, -, -, hsucc⟩ := session_request_ocall_returns_reply_fields sgxDecls
    (constEnv ⟨0, some (sgxReply 1 580 (List.replicate 576 0xAB ++ encLE 4 7))⟩) []
    (memset0 576) 0 (by decide)
  exact hsucc (sgxReply 1 580 (List.replicate 576 0xAB ++ encLE 4 7)) (List.replicate 576 0xAB)
    7 rfl (by set_option maxRecDepth 100000 in decide)
    (by set_option maxRecDepth 100000 in decide) (length_memset0 576)

/-- Counterexample to C9: the transport returns `0` with a reply of `16` bytes, the
header alone; `exchange_report_ocall` reads `dh_msg3` beyond the received bytes. -/
theorem exchange_report_ocall_short_reply_out_of_bounds :
    (sgxReply 3 452 []).length = 16 ∧
    (exchange_report_ocall sgxDecls (constEnv ⟨0, some (sgxReply 3 452 [])⟩) []
      (memset0 512) (memset0 452) 7).exit = .fault .out_of_bounds := by
  refine ⟨by decide, ?_⟩
  set_option maxRecDepth 100000 in decide

/-- C9, amended: for a `dh_msg2` and a `dh_msg3` of their declared sizes and a
successful allocation, `exchange_report_ocall` builds its request inside the allocated
block and hands it to the transport; when the transport returns `0` with a reply of at
least `offsetof(FIFO_MSG, msgbuf) + offsetof(SESSION_MSG3, dh_msg3) +
sizeof(sgx_dh_msg3_t)` bytes, no load or store leaves its object: the call returns
success, `*dh_msg3` holds the `sizeof(sgx_dh_msg3_t)` reply bytes and the heap is as
before. -/
theorem exchange_report_ocall_in_bounds (D : Decls) (E : Env) (h : Heap)
    (dh_msg2 dh_msg3 : List Byte) (session_id : Nat) (hw : D.wf)
    (h2 : dh_msg2.length = D.sizeof_dh_msg2) (h3 : dh_msg3.length = D.sizeof_dh_msg3)
    (hm : E.malloc_fails h (D.sizeof_FIFO_MSG_HEADER + D.sizeof_SESSION_MSG2) = false) :
    ∃ msg, (exchange_report_ocall D E h dh_msg2 dh_msg3 session_id).calls =
        [(msg, D.sizeof_FIFO_MSG_HEADER + D.sizeof_SESSION_MSG2)] ∧
      msg.length = D.sizeof_FIFO_MSG_HEADER + D.sizeof_SESSION_MSG2 ∧
      ∀ msg3 : List Byte,
        E.client_send_receive msg (D.sizeof_FIFO_MSG_HEADER + D.sizeof_SESSION_MSG2) =
          ⟨0, some msg3⟩ →
        D.off_msgbuf + D.off_msg3_dh_msg3 + D.sizeof_dh_msg3 ≤ msg3.length →
        (exchange_report_ocall D E h dh_msg2 dh_msg3 session_id).exit = .returned 0 ∧
        (exchange_report_ocall D E h dh_msg2 dh_msg3 session_id).out =
          (msg3.drop (D.off_msgbuf + D.off_msg3_dh_msg3)).take D.sizeof_dh_msg3 ∧
        (exchange_report_ocall D E h dh_msg2 dh_msg3 session_id).heap = h := by
  have hS : size_t (D.sizeof_FIFO_MSG_HEADER + D.sizeof_SESSION_MSG2) =
      D.sizeof_FIFO_MSG_HEADER + D.sizeof_SESSION_MSG2 := by
    obtain ⟨-, -, -, -, -, -, -, -, -, -, -, -, -, -, -, -, h17, -⟩ := hw
    exact Nat.mod_eq_of_lt h17
  obtain ⟨msg, hmsg, l⟩ := exchange_report_message_spec hw session_id (le_of_eq h2.symm)
  rw [← hS] at hm
  refine ⟨msg, hS ▸ exchange_report_ocall_calls_eq hm hmsg, l, ?_⟩
  intro msg3 hr hlen
  rw [← hS] at hr
  obtain ⟨out, e, -, hout, -⟩ := memcpy_spec (d := dh_msg3) (s := msg3) (i := 0)
    (j := D.off_msgbuf + D.off_msg3_dh_msg3) (n := D.sizeof_dh_msg3) hlen (by omega)
  rw [exchange_report_ocall_success hm hmsg hr e]
  refine ⟨rfl, ?_, rfl⟩
  show out = _
  have hl : ((msg3.drop (D.off_msgbuf + D.off_msg3_dh_msg3)).take D.sizeof_dh_msg3).length =
      D.sizeof_dh_msg3 := by
    rw [List.length_take, List.length_drop]; omega
  rw [hout, stored_zero_full (by omega)]

/-- Witness of C9: the reply carries `452` body bytes `0xCD`. -/
theorem exchange_report_ocall_in_bounds_witness :
    (exchange_report_ocall sgxDecls
      (constEnv ⟨0, some (sgxReply 3 452 (List.replicate 452 0xCD))⟩) []
      (memset0 512) (memset0 452) 7).exit = .returned 0 ∧
    (exchange_report_ocall sgxDecls
      (constEnv ⟨0, some (sgxReply 3 452 (List.replicate 452 0xCD))⟩) []
      (memset0 512) (memset0 452) 7).out =
        ((sgxReply 3 452 (List.replicate 452 0xCD)).drop
          (sgxDecls.off_msgbuf + sgxDecls.off_msg3_dh_msg3)).take sgxDecls.sizeof_dh_msg3 ∧
    (exchange_report_ocall sgxDecls
      (constEnv ⟨0, some (sgxReply 3 452 (List.replicate 452 0xCD))⟩) []
      (memset0 512) (memset0 452) 7).heap = [] := by
  obtain ⟨msg, -, -, hsucc⟩ := exchange_report_ocall_in_bounds sgxDecls
    (constEnv ⟨0, some (sgxReply 3 452 (List.replicate 452 0xCD))⟩) []
    (memset0 512) (memset0 452) 7 (by decide) (length_memset0 512) (length_memset0 452) rfl
  exact hsucc (sgxReply 3 452 (List.replicate 452 0xCD)) rfl
    (by set_option maxRecDepth 100000 in decide)

/-- Counterexample to C10: for `req_message_size = 2^64 - 1` the allocated size wraps
to `39` and the body size written in the header wraps to `23`. -/
theorem send_request_reqsize_wraps :
    2 ^ 64 - 1 < 2 ^ 64 ∧
    send_request_reqsize sgxDecls (2 ^ 64 - 1) = 39 ∧
    send_request_reqsize sgxDecls (2 ^ 64 - 1) ≠
      sgxDecls.sizeof_FIFO_MSG_HEADER + sgxDecls.sizeof_FIFO_MSGBODY_REQ + (2 ^ 64 - 1) ∧
    send_request_body_size sgxDecls (2 ^ 64 - 1) = 23 ∧
    send_request_body_size sgxDecls (2 ^ 64 - 1) ≠
      sgxDecls.sizeof_FIFO_MSGBODY_REQ + (2 ^ 64 - 1) := by
  refine ⟨by decide, by decide, by decide, by decide, by decide⟩

/-- C10, amended: for every `req_message_size` with `sizeof(FIFO_MSG_HEADER) +
sizeof(FIFO_MSGBODY_REQ) + req_message_size < 2^64`, the size `send_request_ocall`
allocates is that sum, the body size it writes in the header is
`sizeof(FIFO_MSGBODY_REQ) + req_message_size`, and the header, the metadata and the
request bytes are written inside a block of that size. -/
theorem send_request_reqsize_no_wrap (D : Decls) (req_message_size : Nat) (hw : D.wf)
    (hn : D.sizeof_FIFO_MSG_HEADER + D.sizeof_FIFO_MSGBODY_REQ + req_message_size < 2 ^ 64) :
    send_request_reqsize D req_message_size =
      D.sizeof_FIFO_MSG_HEADER + D.sizeof_FIFO_MSGBODY_REQ + req_message_size ∧
    send_request_body_size D req_message_size =
      D.sizeof_FIFO_MSGBODY_REQ + req_message_size ∧
    ∀ (session_id max_payload_size : Nat) (req_message : List Byte),
      session_id < 2 ^ 32 → max_payload_size < 2 ^ 64 →
      req_message.length = req_message_size →
      ∃ msg, send_request_message D session_id req_message req_message_size max_payload_size
          (send_request_reqsize D req_message_size) = some msg ∧
        msg.length = D.sizeof_FIFO_MSG_HEADER + D.sizeof_FIFO_MSGBODY_REQ + req_message_size := by
  refine ⟨send_request_reqsize_eq hn, ?_, ?_⟩
  · unfold send_request_body_size size_t
    exact Nat.mod_eq_of_lt (by omega)
  · intro session_id max_payload_size req_message hsid hmax hreq
    obtain ⟨msg, e, l, -⟩ := send_request_message_spec hw hsid hmax (le_of_eq hreq.symm) hn
    exact ⟨msg, e, l⟩

/-- Witness of C10: a request of three bytes. -/
theorem send_request_reqsize_no_wrap_witness :
    send_request_reqsize sgxDecls 3 =
      sgxDecls.sizeof_FIFO_MSG_HEADER + sgxDecls.sizeof_FIFO_MSGBODY_REQ + 3 ∧
    send_request_body_size sgxDecls 3 = sgxDecls.sizeof_FIFO_MSGBODY_REQ + 3 ∧
    ∃ msg, send_request_message sgxDecls 7 [1, 2, 3] 3 16 (send_request_reqsize sgxDecls 3) =
        some msg ∧
      msg.length = sgxDecls.sizeof_FIFO_MSG_HEADER + sgxDecls.sizeof_FIFO_MSGBODY_REQ + 3 :=
  ⟨(send_request_reqsize_no_wrap sgxDecls 3 (by decide) (by decide)).1,
    (send_request_reqsize_no_wrap sgxDecls 3 (by decide) (by decide)).2.1,
    (send_request_reqsize_no_wrap sgxDecls 3 (by decide) (by decide)).2.2 7 16 [1, 2, 3]
      (by decide) (by decide) rfl⟩

end LocalAttestation
